import Mathlib

/-!
Verification of the analytics core of the kl-chat-reporting-ai-agent backend
(file src/backend/server.py), a real-estate-auction analytics chat service.

This file gives a shallow embedding of the query pipeline:

* the domain-relevance gate (method AnalyticsService.is_domain_relevant),
* intent classification (AnalyticsService.parse_intent) and entity
  extraction (AnalyticsService.extract_entities),
* the structured aggregators (get_top_investors_data,
  get_last_month_winners_data, get_regional_analysis_data, ...),
* the response-envelope builders and the main entry point
  (AnalyticsService.analyze_query),

and proves the testable properties stated in the specification against it.

Modelling conventions:

* Python floats are modelled as rationals (all verified properties concern
  ordering, counting and exact division, never floating-point rounding).
* Python datetimes are modelled as integer timestamps in seconds;
  timedelta(days=n) becomes n * 86400.
* Python dicts used as insertion-ordered maps are modelled as association
  lists with append-on-miss update, which matches dict insertion-order
  semantics.
* Python exceptions are modelled with Except; each try/except in the source
  becomes a match on the Except value at the same place.
* Display formatting of numbers inside prose strings (Python f-string
  format specs) is abstracted by plain toString; no verified property
  depends on the prose text of data-dependent messages.
-/

set_option linter.unusedVariables false

/-! ## Character and substring scanning

Python string operations used by the service: `needle in hay` (substring
test), `str.lower`, and `re` word-boundary search. -/

/-- Python regex word character for the ASCII inputs used here:
`[a-zA-Z0-9_]`. -/
def isWordChar (c : Char) : Bool :=
  c.isAlpha || c.isDigit || c == '_'

/-- Python regex whitespace, restricted to the ASCII whitespace that can
occur in chat queries. -/
def isSpaceChar (c : Char) : Bool :=
  c == ' ' || c == '\t' || c == '\n' || c == '\r'

/-- `listStarts needle hay` is true when `needle` is an initial segment of
`hay`. -/
def listStarts : List Char → List Char → Bool
  | [], _ => true
  | _ :: _, [] => false
  | a :: as, b :: bs => a == b && listStarts as bs

/-- `hasSubstr needle hay`: Python `needle in hay` on character lists. -/
def hasSubstr (needle : List Char) : List Char → Bool
  | [] => listStarts needle []
  | c :: rest => listStarts needle (c :: rest) || hasSubstr needle rest

/-- `containsSubstr needle hay`: Python `needle in hay` on strings. -/
def containsSubstr (needle hay : String) : Bool :=
  hasSubstr needle.data hay.data

/-- A regex `\b` holds at a position whose previous character is `prev`
(none at the start of the string) when the current character is a word
character: the previous one must not be. -/
def boundaryBefore (prev : Option Char) : Bool :=
  match prev with
  | none => true
  | some c => !(isWordChar c)

/-- A regex `\b` holds after a word character when the following text
(`rest`) does not begin with a word character. -/
def boundaryAfter (rest : List Char) : Bool :=
  match rest with
  | [] => true
  | c :: _ => !(isWordChar c)

/-- The pattern `\b kw \b` matches at the current position (whose previous
character is accounted for by the caller): `kw` is an initial segment of
`s` and no word character follows it.  All gate keywords start and end
with word characters, so `\b` reduces to these two conditions. -/
def wbMatchHere (kw s : List Char) : Bool :=
  listStarts kw s && boundaryAfter (s.drop kw.length)

/-- Search for `\b kw \b` anywhere in the text, tracking the previous
character for the leading boundary.  Models `re.search(r'\b'+kw+r'\b', s)`
for keywords made of word characters. -/
def wbSearch (kw : List Char) (prev : Option Char) : List Char → Bool
  | [] => boundaryBefore prev && wbMatchHere kw []
  | c :: rest =>
    (boundaryBefore prev && wbMatchHere kw (c :: rest)) || wbSearch kw (some c) rest

/-- `containsWord kw s`: Python `re.search(r'\b'+re.escape(kw)+r'\b', s)`
is not None, for the plain-word keywords of the gate. -/
def containsWord (kw s : String) : Bool :=
  wbSearch kw.data none s.data

/-- Python str.lower for the ASCII text handled by the service. -/
def lowerString (s : String) : String :=
  ⟨s.data.map Char.toLower⟩

/-! ## Domain-relevance gate (AnalyticsService.is_domain_relevant,
src/backend/server.py lines 1135-1255) -/

/-- Real-estate / auction vocabulary (server.py lines 1144-1169), matched
by substring containment. -/
def domain_keywords : List String :=
  ["property", "properties", "real estate", "auction", "auctions", "bid", "bids", "bidding",
   "investor", "investors", "investment", "market", "price", "pricing", "value", "valuation",
   "residential", "commercial", "industrial", "land", "building", "house", "condo", "apartment",
   "sale", "sales", "sold", "listing", "listings", "reserve", "winning", "won", "lost",
   "region", "regional", "city", "cities", "county", "counties", "state", "area", "location",
   "market", "markets", "local", "metropolitan", "urban", "suburban",
   "analysis", "analytics", "report", "summary", "overview", "insight", "insights", "trend", "trends",
   "performance", "activity", "volume", "statistics", "data", "metrics",
   "hammer", "gavel", "reserve price", "starting bid", "increment", "lot", "lots",
   "foreclosure", "distressed", "liquidation", "estate sale",
   "portfolio", "roi", "return", "profit", "loss", "revenue", "income", "cash flow",
   "mortgage", "financing", "loan", "appraisal", "assessment",
   "monthly", "quarterly", "yearly", "last month", "this month", "recent", "historical"]

/-- Out-of-domain vocabulary (server.py lines 1172-1202), matched with
word-boundary regular expressions. -/
def irrelevant_keywords : List String :=
  ["weather", "temperature", "rain", "sunny", "cloudy", "storm", "forecast", "climate",
   "food", "recipe", "cooking", "restaurant", "eat", "meal", "lunch", "dinner", "breakfast",
   "pizza", "burger", "pasta", "cuisine", "chef", "kitchen",
   "football", "basketball", "baseball", "soccer", "tennis", "golf", "hockey", "sport", "sports",
   "game", "team", "player", "score", "championship", "league", "tournament",
   "movie", "film", "actor", "actress", "music", "song", "album", "concert", "tv", "television",
   "netflix", "youtube", "streaming", "video", "gaming",
   "doctor", "hospital", "medicine", "health", "disease", "symptom", "treatment", "therapy",
   "medication", "surgery", "illness", "pain",
   "programming", "coding", "software", "hardware", "computer", "laptop", "phone", "smartphone",
   "internet", "wifi", "bluetooth",
   "travel", "vacation", "hotel", "flight", "airport", "passport", "tourism", "holiday",
   "love", "relationship", "dating", "marriage", "family", "friendship", "hobby", "book", "reading",
   "painting", "dance", "fashion", "clothing", "automobile", "driving"]

/-- Common real-estate phrases (server.py lines 1229-1234), the second
in-domain signal of the gate. -/
def real_estate_phrases : List String :=
  ["top investor", "best bidder", "highest bid", "winning bid", "property type",
   "auction result", "market trend", "price analysis", "regional market",
   "investment performance", "bidding strategy", "property value",
   "auction activity", "market analysis", "sales data"]

/-- `re.search(r'\d+', s)` is not None. -/
def hasNumbers (s : String) : Bool :=
  s.data.any Char.isDigit

/-- Action words of the heuristic fallback check (server.py line 1247). -/
def hasActionWords (s : String) : Bool :=
  ["top", "list", "show", "find"].any (fun w => containsSubstr w s)

/-- AnalyticsService.is_domain_relevant (server.py lines 1135-1255):
an out-of-domain keyword (word-boundary matched) rejects the query first;
then any in-domain keyword, in-domain phrase, or the numbers-plus-action
heuristic accepts it; otherwise the query is rejected. -/
def is_domain_relevant (user_query : String) : Bool :=
  let query_lower := lowerString user_query
  if irrelevant_keywords.any (fun kw => containsWord kw query_lower) then
    false
  else if domain_keywords.any (fun kw => containsSubstr kw query_lower) then
    true
  else if real_estate_phrases.any (fun p => containsSubstr p query_lower) then
    true
  else
    hasNumbers query_lower && hasActionWords query_lower

/-- The query matches at least one in-domain keyword or in-domain phrase
of the gate (the two positive keyword checks of is_domain_relevant). -/
def inDomainSignal (user_query : String) : Bool :=
  let query_lower := lowerString user_query
  domain_keywords.any (fun kw => containsSubstr kw query_lower) ||
    real_estate_phrases.any (fun p => containsSubstr p query_lower)

/-! ## Intent classification (AnalyticsService.parse_intent,
src/backend/server.py lines 159-276) -/

/-- The fixed ordered intent table (server.py lines 163-260).  Python
dicts preserve insertion order, so iteration order is declaration order. -/
def intent_patterns : List (String × List String) :=
  [("top_bidders",
    ["top bidder", "top bidders", "highest bidder", "highest bidders",
     "most active investor", "most active investors",
     "biggest investor", "biggest investors",
     "leading bidder", "leading bidders"]),
   ("top_investors",
    ["top investor", "top investors",
     "best investor", "best investors",
     "successful investor", "successful investors",
     "winning investor", "winning investors",
     "investor ranking", "investor rankings",
     "top 5 investor", "top 5 investors",
     "top 3 investor", "top 3 investors",
     "top 10 investor", "top 10 investors",
     "investors by bid amount", "investors by total bid"]),
   ("last_month_winners",
    ["won more than", "won over", "more than x properties",
     "winners in last month", "winners last month",
     "investors who won", "investors that won",
     "won properties in last month", "won in the last month",
     "multiple properties last month", "won 2 properties",
     "won 3 properties", "won several properties"]),
   ("auction_summary",
    ["auction summary", "auction overview",
     "auction status", "auction report",
     "summary of auctions", "auctions summary",
     "auction activity summary", "auction insights"]),
   ("property_analysis",
    ["property performance", "property trend", "property trends",
     "property comparison", "compare properties",
     "property market", "property data",
     "top property", "trending properties"]),
   ("bidding_trends",
    ["bidding trend", "bidding trends",
     "bid pattern", "bid patterns",
     "bidding activity", "bidding volume",
     "bid volume", "bid behavior",
     "bidding behavior", "bidding stats"]),
   ("regional_analysis",
    ["region", "regions", "by region",
     "city", "cities", "by city",
     "location", "locations", "geographic",
     "area", "areas", "market area",
     "regional analysis", "region-wise", "location-wise"]),
   ("price_analysis",
    ["reserve price", "reserve prices",
     "winning bid", "winning bids",
     "price trend", "price trends",
     "price comparison", "price vs",
     "compare price", "price difference"]),
   ("time_analysis",
    ["trend over time", "over the past", "last month",
     "monthly", "daily", "weekly",
     "time series", "quarterly", "period", "trend duration"]),
   ("comparison",
    ["compare", "comparison", "vs", "versus",
     "difference between", "contrast", "compare across"]),
   ("live_auctions",
    ["live auction", "live auctions",
     "active auction", "active auctions",
     "current auction", "current auctions",
     "ongoing auction", "ongoing auctions"]),
   ("upcoming_auctions",
    ["upcoming auction", "upcoming auctions",
     "scheduled auction", "scheduled auctions",
     "future auction", "future auctions",
     "next auction", "next auctions"]),
   ("completed_auctions",
    ["completed auction", "completed auctions",
     "finished auction", "finished auctions",
     "ended auction", "ended auctions",
     "past auction", "past auctions"]),
   ("cancelled_auctions",
    ["cancelled auction", "cancelled auctions",
     "canceled auction", "canceled auctions",
     "auction cancellation", "auction cancellations",
     "cancelled due to no bidders", "canceled due to no bidders",
     "cancelled due to no bids", "canceled due to no bids",
     "no bidders", "no bidding",
     "auctions cancelled", "auctions canceled",
     "unsuccessful auction", "unsuccessful auctions",
     "failed auction", "failed auctions"])]

/-- Entity bag extracted from a query
(AnalyticsService.extract_entities). -/
structure Entities where
  time_period : List String
  locations : List String
  property_types : List String
  numbers : List Nat
deriving Repr, DecidableEq

/-- Python str.title: uppercase every letter that follows a non-letter,
lowercase the rest. -/
def titleCaseAux : Bool → List Char → List Char
  | _, [] => []
  | prevAlpha, c :: rest =>
    (if c.isAlpha then (if prevAlpha then c.toLower else c.toUpper) else c)
      :: titleCaseAux c.isAlpha rest

/-- Python str.title on strings. -/
def titleCase (s : String) : String :=
  ⟨titleCaseAux false s.data⟩

/-- Numeric value of a digit run. -/
def natOfDigits (ds : List Char) : Nat :=
  ds.foldl (fun a c => a * 10 + (c.toNat - '0'.toNat)) 0

/-- One attempted match of `\b w \s+(\d+)\b` at the current position, for
a single literal `w`: the literal, then at least one whitespace character,
then a maximal nonempty digit run followed by a non-word character.
Returns the captured number, the remaining text, and the last consumed
character (a digit). -/
def tryNumMatchWith (w : String) (s : List Char) : Option (Nat × List Char × Char) :=
  if listStarts w.data s then
    let rest1 := s.drop w.data.length
    let ws := rest1.takeWhile isSpaceChar
    let rest2 := rest1.dropWhile isSpaceChar
    let ds := rest2.takeWhile Char.isDigit
    let rest3 := rest2.dropWhile Char.isDigit
    if !ws.isEmpty && !ds.isEmpty && boundaryAfter rest3 then
      some (natOfDigits ds, rest3, ds.getLastD '0')
    else
      none
  else
    none

/-- One attempted match of `\b(?:top|first|best)\s+(\d+)\b` at the current
position; the alternation is tried left to right as the regex engine
does. -/
def tryNumMatch (s : List Char) : Option (Nat × List Char × Char) :=
  match tryNumMatchWith "top" s with
  | some r => some r
  | none =>
    match tryNumMatchWith "first" s with
    | some r => some r
    | none => tryNumMatchWith "best" s

/-- A successful single-word match consumes at least the digit run, so the
remaining text is strictly shorter. -/
theorem tryNumMatchWith_shrinks {w : String} {s : List Char} {n : Nat}
    {r : List Char} {c : Char} (h : tryNumMatchWith w s = some (n, r, c)) :
    r.length < s.length := by
  unfold tryNumMatchWith at h
  split at h
  case isFalse => exact absurd h (by simp)
  case isTrue hks =>
    dsimp only at h
    split at h
    case isFalse => exact absurd h (by simp)
    case isTrue hcond =>
      have hds : (((s.drop w.data.length).dropWhile isSpaceChar).takeWhile Char.isDigit).isEmpty
          = false := by
        cases hde : (((s.drop w.data.length).dropWhile isSpaceChar).takeWhile Char.isDigit).isEmpty
        · rfl
        · rw [hde] at hcond
          simp at hcond
      have hr : r = ((s.drop w.data.length).dropWhile isSpaceChar).dropWhile Char.isDigit := by
        have := Option.some.inj h
        exact (congrArg (fun t => t.2.1) this).symm
      have hsplit : (((s.drop w.data.length).dropWhile isSpaceChar).takeWhile Char.isDigit).length
          + (((s.drop w.data.length).dropWhile isSpaceChar).dropWhile Char.isDigit).length
          = ((s.drop w.data.length).dropWhile isSpaceChar).length := by
        rw [← List.length_append, List.takeWhile_append_dropWhile]
      have hdsne : 0 < (((s.drop w.data.length).dropWhile isSpaceChar).takeWhile Char.isDigit).length := by
        rcases hne : ((s.drop w.data.length).dropWhile isSpaceChar).takeWhile Char.isDigit with _ | ⟨a, l⟩
        · rw [hne] at hds; simp at hds
        · simp [hne]
      have h2 : ((s.drop w.data.length).dropWhile isSpaceChar).length
          ≤ (s.drop w.data.length).length := by
        have hsp : ((s.drop w.data.length).takeWhile isSpaceChar).length
            + ((s.drop w.data.length).dropWhile isSpaceChar).length
            = (s.drop w.data.length).length := by
          rw [← List.length_append, List.takeWhile_append_dropWhile]
        omega
      have h3 : (s.drop w.data.length).length ≤ s.length := by
        rw [List.length_drop]; omega
      rw [hr]
      omega

/-- A successful alternation match strictly shrinks the text. -/
theorem tryNumMatch_shrinks {s : List Char} {n : Nat} {r : List Char} {c : Char}
    (h : tryNumMatch s = some (n, r, c)) : r.length < s.length := by
  unfold tryNumMatch at h
  split at h
  case h_1 heq => exact tryNumMatchWith_shrinks (heq.trans h)
  case h_2 =>
    split at h
    case h_1 heq => exact tryNumMatchWith_shrinks (heq.trans h)
    case h_2 => exact tryNumMatchWith_shrinks h

/-- Fuel-indexed left-to-right, non-overlapping scan of
`re.findall(r'\b(?:top|first|best)\s+(\d+)\b', s)`, tracking the previous
character for the leading word boundary.  Each step consumes at least one
character (see tryNumMatch_shrinks), so any fuel of at least `s.length`
steps computes the full scan; structural recursion on the fuel keeps the
definition kernel-reducible. -/
def numScanF : Nat → Option Char → List Char → List Nat
  | 0, _, _ => []
  | _, _, [] => []
  | fuel + 1, prev, c :: rest =>
    if boundaryBefore prev then
      match tryNumMatch (c :: rest) with
      | some (n, rest3, lastc) => n :: numScanF fuel (some lastc) rest3
      | none => numScanF fuel (some c) rest
    else
      numScanF fuel (some c) rest

/-- The scan with adequate fuel. -/
def numScan (prev : Option Char) (s : List Char) : List Nat :=
  numScanF s.length prev s

/-- AnalyticsService.extract_entities (server.py lines 278-312). -/
def extract_entities (user_query : String) : Entities :=
  let query_lower := lowerString user_query
  let time_patterns := ["last month", "this month", "last week", "this week", "last year",
    "past 30 days", "past week", "last 5 days", "last quarter"]
  let location_patterns := ["california", "new york", "texas", "florida", "chicago",
    "los angeles", "san francisco", "miami", "boston", "seattle"]
  let property_patterns := ["residential", "commercial", "industrial", "land", "condo",
    "house", "building"]
  { time_period := time_patterns.filter (fun p => containsSubstr p query_lower)
    locations := (location_patterns.filter (fun p => containsSubstr p query_lower)).map titleCase
    property_types := property_patterns.filter (fun p => containsSubstr p query_lower)
    numbers := numScan none query_lower.data }

/-- Result of intent classification (return value of parse_intent). -/
structure IntentInfo where
  primary_intent : String
  all_intents : List String
  entities : Entities
deriving Repr, DecidableEq

/-- AnalyticsService.parse_intent (server.py lines 159-276): collect, in
table order, every intent one of whose phrases occurs in the lower-cased
query; default to general_analysis when none matched; the primary intent
is the first collected one. -/
def parse_intent (user_query : String) : IntentInfo :=
  let query_lower := lowerString user_query
  let detected_intents :=
    (intent_patterns.filter
      (fun ip => ip.2.any (fun pat => containsSubstr pat query_lower))).map (fun ip => ip.1)
  let detected_intents :=
    if detected_intents.isEmpty then ["general_analysis"] else detected_intents
  { primary_intent := detected_intents.headD "general_analysis"
    all_intents := detected_intents
    entities := extract_entities user_query }

/-! ## Data model (src/backend/server.py lines 59-110)

Monetary amounts (Python floats) are rationals; timestamps are integer
seconds.  Status tags are the strings stored in the documents, as the
aggregators compare them with string equality. -/

/-- Investor record (pydantic model User, server.py lines 59-68). -/
structure User where
  id : String
  email : String
  name : String
  location : String
  profile_verified : Bool
  success_rate : Rat
  total_bids : Nat
  won_auctions : Nat
deriving Repr, DecidableEq

/-- Listing record (pydantic model Property, server.py lines 70-87);
the optional physical attributes are omitted: no aggregator reads them. -/
structure Property where
  id : String
  title : String
  description : String
  location : String
  city : String
  state : String
  zipcode : String
  property_type : String
  reserve_price : Rat
  estimated_value : Rat
deriving Repr, DecidableEq

/-- Auction record (pydantic model Auction, server.py lines 89-100). -/
structure Auction where
  id : String
  property_id : String
  title : String
  start_time : Int
  end_time : Int
  status : String
  starting_bid : Rat
  current_highest_bid : Rat
  total_bids : Nat
  winner_id : Option String
deriving Repr, DecidableEq

/-- Bid record (pydantic model Bid, server.py lines 102-110). -/
structure Bid where
  id : String
  auction_id : String
  property_id : String
  investor_id : String
  bid_amount : Rat
  bid_time : Int
  status : String
  is_auto_bid : Bool
deriving Repr, DecidableEq

/-- Insertion-ordered dict update: Python
`if k not in m: m[k] = fresh` followed by in-place mutation `f` of `m[k]`.
A missing key is appended at the end, as dict insertion order does. -/
def assocUpdate {β : Type} (m : List (String × β)) (k : String) (fresh : β) (f : β → β) :
    List (String × β) :=
  match m with
  | [] => [(k, f fresh)]
  | (k2, v) :: rest =>
    if k2 == k then (k2, f v) :: rest else (k2, v) :: assocUpdate rest k fresh f

/-- Python dict comprehension `{u["id"]: u for u in users}` followed by a
key lookup: the last record with the looked-up id wins. -/
def userLookup (users : List User) (i : String) : Option User :=
  users.foldl (fun acc u => if u.id == i then some u else acc) none

/-- Python `max` on a list of amounts.  Python raises ValueError on an
empty list; every bid_amounts list this is applied to is provably
nonempty (claim C10), so the 0 default is never read. -/
def listMax : List Rat → Rat
  | [] => 0
  | x :: xs => xs.foldl max x

/-- Python `min` on a list of amounts, same conventions as listMax. -/
def listMin : List Rat → Rat
  | [] => 0
  | x :: xs => xs.foldl min x

/-! ## Top investors aggregate (AnalyticsService.get_top_investors_data,
src/backend/server.py lines 469-521) -/

/-- Per-investor accumulator of the grouping loop
(server.py lines 474-490). -/
structure InvestorStats where
  total_bids : Nat
  total_amount : Rat
  winning_bids : Nat
  bid_amounts : List Rat
deriving Repr, DecidableEq

/-- The zero-initialised entry created on first sight of an investor
(server.py lines 477-483). -/
def freshInvestorStats : InvestorStats :=
  { total_bids := 0, total_amount := 0, winning_bids := 0, bid_amounts := [] }

/-- One iteration of the grouping loop body
(server.py lines 485-490). -/
def bumpStats (b : Bid) (s : InvestorStats) : InvestorStats :=
  { total_bids := s.total_bids + 1
    total_amount := s.total_amount + b.bid_amount
    winning_bids := if b.status == "winning" then s.winning_bids + 1 else s.winning_bids
    bid_amounts := s.bid_amounts ++ [b.bid_amount] }

/-- The investor_stats dict after the grouping loop over all bids. -/
def investorStatsOf (bids : List Bid) : List (String × InvestorStats) :=
  bids.foldl (fun m b => assocUpdate m b.investor_id freshInvestorStats (bumpStats b)) []

/-- Enriched per-investor record (server.py lines 499-512). -/
structure EnrichedInvestor where
  investor_id : String
  name : String
  location : String
  email : String
  profile_verified : Bool
  total_bids : Nat
  total_amount : Rat
  average_bid : Rat
  winning_bids : Nat
  success_rate : Rat
  max_bid : Rat
  min_bid : Rat
deriving Repr, DecidableEq

/-- Build one enriched record (server.py lines 499-512).  Rational
division is total in Lean; total_bids is provably at least 1 here
(claim C10), so the Python ZeroDivisionError branch is unreachable. -/
def mkEnrichedInvestor (i : String) (u : User) (s : InvestorStats) : EnrichedInvestor :=
  { investor_id := i
    name := u.name
    location := u.location
    email := u.email
    profile_verified := u.profile_verified
    total_bids := s.total_bids
    total_amount := s.total_amount
    average_bid := s.total_amount / (s.total_bids : Rat)
    winning_bids := s.winning_bids
    success_rate := ((s.winning_bids : Rat) / (s.total_bids : Rat)) * 100
    max_bid := listMax s.bid_amounts
    min_bid := listMin s.bid_amounts }

/-- Sort order of `sorted(enriched_investors, key=lambda x:
x["total_amount"], reverse=True)`: descending total amount.  Python sort
is stable, and a stable sort under a total preorder is unique, so the
insertion sort below returns exactly the list Python returns. -/
def topInvRel (a b : EnrichedInvestor) : Prop :=
  b.total_amount ≤ a.total_amount

instance : DecidableRel topInvRel :=
  fun a b => inferInstanceAs (Decidable (b.total_amount ≤ a.total_amount))

instance : IsTotal EnrichedInvestor topInvRel :=
  ⟨fun a b => le_total b.total_amount a.total_amount⟩

instance : IsTrans EnrichedInvestor topInvRel :=
  ⟨fun _ _ _ h1 h2 => le_trans h2 h1⟩

/-- Return value of get_top_investors_data (server.py lines 517-521). -/
structure TopInvestorsData where
  top_investors : List EnrichedInvestor
  total_investors : Nat
  requested_count : Nat
deriving Repr, DecidableEq

/-- AnalyticsService.get_top_investors_data (server.py lines 469-521):
group bids by investor, join with the user table, sort by total bid
amount descending, truncate to the requested count (first extracted
number, default 5). -/
def get_top_investors_data (users : List User) (bids : List Bid) (entities : Entities) :
    TopInvestorsData :=
  let limit := match entities.numbers with
    | [] => 5
    | n :: _ => n
  let investor_stats := investorStatsOf bids
  let enriched_investors := investor_stats.filterMap (fun p =>
    (userLookup users p.1).map (fun u => mkEnrichedInvestor p.1 u p.2))
  let top_investors := (enriched_investors.insertionSort topInvRel).take limit
  { top_investors := top_investors
    total_investors := enriched_investors.length
    requested_count := limit }

/-! ## Last-month winners aggregate
(AnalyticsService.get_last_month_winners_data,
src/backend/server.py lines 374-467) -/

/-- One won-property record (server.py lines 412-418). -/
structure WonProperty where
  auction_id : String
  property_id : String
  auction_title : String
  winning_bid : Rat
  auction_end_date : Int
deriving Repr, DecidableEq

/-- Per-winner accumulator (server.py lines 404-420). -/
structure WinStats where
  investor_id : String
  won_properties : List WonProperty
  total_won : Nat
  total_spent : Rat
deriving Repr, DecidableEq

/-- Python truthiness of `auction.get("winner_id")`: present and not the
empty string. -/
def winnerTruthy : Option String → Bool
  | none => false
  | some s => !(s == "")

/-- The auction filter of server.py lines 393-395: status "ended", end
time inside the window, truthy winner reference. -/
def lastMonthPred (startW endW : Int) (a : Auction) : Bool :=
  a.status == "ended" && decide (startW ≤ a.end_time) && decide (a.end_time ≤ endW)
    && winnerTruthy a.winner_id

/-- The ended_auctions_last_month list (server.py lines 387-396), with
the window 60 to 30 days before now (server.py lines 380-382). -/
def ended_auctions_last_month (auctions : List Auction) (now : Int) : List Auction :=
  auctions.filter (lastMonthPred (now - 60 * 86400) (now - 30 * 86400))

/-- The won-property record appended for one auction
(server.py lines 412-418). -/
def wonPropertyOf (a : Auction) : WonProperty :=
  { auction_id := a.id
    property_id := a.property_id
    auction_title := a.title
    winning_bid := a.current_highest_bid
    auction_end_date := a.end_time }

/-- One iteration of the win-counting loop body
(server.py lines 412-420). -/
def bumpWin (a : Auction) (w : WinStats) : WinStats :=
  { w with
    won_properties := w.won_properties ++ [wonPropertyOf a]
    total_won := w.total_won + 1
    total_spent := w.total_spent + a.current_highest_bid }

/-- The investor_wins dict after the loop over the filtered auctions
(server.py lines 401-420).  Every auction in the filtered list carries a
truthy winner_id, so the none branch is unreachable. -/
def investorWinsOf (ended : List Auction) : List (String × WinStats) :=
  ended.foldl (fun m a =>
    match a.winner_id with
    | some wid =>
      assocUpdate m wid
        { investor_id := wid, won_properties := [], total_won := 0, total_spent := 0 }
        (bumpWin a)
    | none => m) []

/-- Enriched qualified-winner record (server.py lines 432-444). -/
structure QualifiedWinner where
  investor_id : String
  name : String
  location : String
  email : String
  profile_verified : Bool
  properties_won_last_month : Nat
  total_spent_last_month : Rat
  average_winning_bid : Rat
  won_properties : List WonProperty
  overall_success_rate : Rat
  total_career_wins : Nat
deriving Repr, DecidableEq

/-- Sort order of `key=lambda x: (-properties_won, -total_spent)`
(server.py line 448): win count descending, ties by total spend
descending. -/
def winnersRel (a b : QualifiedWinner) : Prop :=
  b.properties_won_last_month < a.properties_won_last_month ∨
    (a.properties_won_last_month = b.properties_won_last_month ∧
      b.total_spent_last_month ≤ a.total_spent_last_month)

instance : DecidableRel winnersRel :=
  fun a b => inferInstanceAs (Decidable (_ ∨ _))

instance : IsTotal QualifiedWinner winnersRel := by
  constructor
  intro a b
  rcases lt_trichotomy a.properties_won_last_month b.properties_won_last_month with h | h | h
  · exact Or.inr (Or.inl h)
  · rcases le_total b.total_spent_last_month a.total_spent_last_month with h2 | h2
    · exact Or.inl (Or.inr ⟨h, h2⟩)
    · exact Or.inr (Or.inr ⟨h.symm, h2⟩)
  · exact Or.inl (Or.inl h)

instance : IsTrans QualifiedWinner winnersRel := by
  constructor
  intro a b c hab hbc
  rcases hab with h1 | ⟨h1, h1s⟩
  · rcases hbc with h2 | ⟨h2, _⟩
    · exact Or.inl (h2.trans h1)
    · exact Or.inl (h2 ▸ h1)
  · rcases hbc with h2 | ⟨h2, h2s⟩
    · exact Or.inl (h1 ▸ h2)
    · exact Or.inr ⟨h1.trans h2, h2s.trans h1s⟩

/-- The analysis window (server.py lines 452-455). -/
structure QueryPeriod where
  start_date : Int
  end_date : Int
deriving Repr, DecidableEq

/-- The summary_stats dict (server.py lines 456-462). -/
structure SummaryStats where
  total_ended_auctions_last_month : Nat
  investors_with_wins : Nat
  investors_with_2plus_wins : Nat
  total_properties_won : Nat
  total_value_transacted : Rat
deriving Repr, DecidableEq

/-- Return value of get_last_month_winners_data
(server.py lines 450-463). -/
structure WinnersData where
  qualified_winners : List QualifiedWinner
  query_period : QueryPeriod
  summary_stats : SummaryStats
deriving Repr, DecidableEq

/-- AnalyticsService.get_last_month_winners_data (server.py
lines 374-467): filter to ended auctions with a winner inside the 60-to-30
days-before-now window, count wins per winner, keep investors with more
than 2 wins, enrich with the first matching user record, and sort by
(win count desc, total spent desc).  All operations in the body are total
here, so the except branch of server.py line 465 is unreachable in the
model. -/
def get_last_month_winners_data (users : List User) (auctions : List Auction)
    (bids : List Bid) (entities : Entities) (now : Int) : WinnersData :=
  let last_month_start := now - 60 * 86400
  let last_month_end := now - 30 * 86400
  let ended := ended_auctions_last_month auctions now
  let investor_wins := investorWinsOf ended
  let qualified_investors := investor_wins.filter (fun p => 2 < p.2.total_won)
  let qualified_enriched : List QualifiedWinner := qualified_investors.filterMap (fun p =>
    (users.find? (fun u => u.id == p.1)).map (fun u =>
      { investor_id := p.1
        name := u.name
        location := u.location
        email := u.email
        profile_verified := u.profile_verified
        properties_won_last_month := p.2.total_won
        total_spent_last_month := p.2.total_spent
        average_winning_bid := p.2.total_spent / (p.2.total_won : Rat)
        won_properties := p.2.won_properties
        overall_success_rate := u.success_rate
        total_career_wins := u.won_auctions }))
  { qualified_winners := qualified_enriched.insertionSort winnersRel
    query_period := { start_date := last_month_start, end_date := last_month_end }
    summary_stats :=
      { total_ended_auctions_last_month := ended.length
        investors_with_wins := investor_wins.length
        investors_with_2plus_wins := qualified_investors.length
        total_properties_won := (qualified_investors.map (fun p => p.2.total_won)).sum
        total_value_transacted := (qualified_investors.map (fun p => p.2.total_spent)).sum } }

/-! ## Regional analysis aggregate
(AnalyticsService.get_regional_analysis_data,
src/backend/server.py lines 578-625) -/

/-- Per-city accumulator of the aggregation loop
(server.py lines 589-609). -/
structure RegionAcc where
  city : String
  state : String
  properties : Nat
  auctions : Nat
  total_bids : Nat
  total_value : Rat
  property_types : List String
deriving Repr, DecidableEq

/-- Finished per-city entry (server.py lines 611-617). -/
structure RegionEntry where
  city : String
  state : String
  properties : Nat
  auctions : Nat
  total_bids : Nat
  total_value : Rat
  avg_reserve_price : Rat
  property_types : List String
  avg_bids_per_auction : Rat
deriving Repr, DecidableEq

/-- Python dict comprehension `{a["property_id"]: a for a in auctions}`
followed by a key lookup: the last auction with the looked-up property id
wins. -/
def auctionByProp (auctions : List Auction) (pid : String) : Option Auction :=
  auctions.foldl (fun acc a => if a.property_id == pid then some a else acc) none

/-- Python `set.add`.  Iteration order of a Python set of strings is
unspecified; the model fixes first-insertion order.  No verified property
reads property_types. -/
def addType (ts : List String) (t : String) : List String :=
  if ts.contains t then ts else ts ++ [t]

/-- One iteration of the per-city aggregation loop body
(server.py lines 601-609). -/
def bumpRegion (auctions : List Auction) (p : Property) (acc : RegionAcc) : RegionAcc :=
  let acc :=
    { acc with
      properties := acc.properties + 1
      total_value := acc.total_value + p.reserve_price
      property_types := addType acc.property_types p.property_type }
  match auctionByProp auctions p.id with
  | some a =>
    { acc with auctions := acc.auctions + 1, total_bids := acc.total_bids + a.total_bids }
  | none => acc

/-- One iteration of the outer per-city loop (server.py lines 587-609):
create the zero entry for an unseen city, then apply the increments. -/
def regionalStep (auctions : List Auction) (m : List (String × RegionAcc)) (p : Property) :
    List (String × RegionAcc) :=
  assocUpdate m p.city
    { city := p.city, state := p.state, properties := 0, auctions := 0,
      total_bids := 0, total_value := 0, property_types := [] }
    (bumpRegion auctions p)

/-- The regional_data dict after the loop over all properties
(server.py lines 587-609). -/
def regionalFold (auctions : List Auction) (properties : List Property) :
    List (String × RegionAcc) :=
  properties.foldl (regionalStep auctions) []

/-- Average computation of server.py lines 613-616.  The division for
avg_reserve_price carries no explicit guard in the source; the properties
count of every entry is provably at least 1 (claim C9), so the Python
ZeroDivisionError branch is unreachable.  The avg_bids_per_auction
division is guarded by a ternary in the source. -/
def finishRegion (acc : RegionAcc) : RegionEntry :=
  { city := acc.city
    state := acc.state
    properties := acc.properties
    auctions := acc.auctions
    total_bids := acc.total_bids
    total_value := acc.total_value
    avg_reserve_price := acc.total_value / (acc.properties : Rat)
    property_types := acc.property_types
    avg_bids_per_auction :=
      if 0 < acc.auctions then (acc.total_bids : Rat) / (acc.auctions : Rat) else 0 }

/-- Sort order of `regional_list.sort(key=lambda x: x["total_value"],
reverse=True)`: descending total value. -/
def regionalRel (a b : RegionEntry) : Prop :=
  b.total_value ≤ a.total_value

instance : DecidableRel regionalRel :=
  fun a b => inferInstanceAs (Decidable (b.total_value ≤ a.total_value))

instance : IsTotal RegionEntry regionalRel :=
  ⟨fun a b => le_total b.total_value a.total_value⟩

instance : IsTrans RegionEntry regionalRel :=
  ⟨fun _ _ _ h1 h2 => le_trans h2 h1⟩

/-- Return value of get_regional_analysis_data
(server.py lines 622-625). -/
structure RegionalData where
  regional_analysis : List RegionEntry
  total_markets : Nat
deriving Repr, DecidableEq

/-- AnalyticsService.get_regional_analysis_data (server.py
lines 578-625): group properties by city, join auction bid counts,
compute averages, sort by total value descending. -/
def get_regional_analysis_data (properties : List Property) (auctions : List Auction)
    (bids : List Bid) (entities : Entities) : RegionalData :=
  let regional_list := (regionalFold auctions properties).map (fun p => finishRegion p.2)
  let sortedRegions := regional_list.insertionSort regionalRel
  { regional_analysis := sortedRegions
    total_markets := sortedRegions.length }

/-! ## Response envelopes (pydantic models ChartData, TableData,
ChatResponse, src/backend/server.py lines 129-148) -/

/-- A JSON-ish cell value (Python Any) inside chart rows and table
rows. -/
inductive Cell where
  | str (s : String)
  | nat (n : Nat)
  | rat (q : Rat)
  | int (i : Int)
  | bool (b : Bool)
deriving Repr, DecidableEq

/-- Chart descriptor (pydantic model ChartData, server.py lines 129-133).
Each data row is a dict, modelled as a field-value list. -/
structure ChartData where
  data : List (List (String × Cell))
  type : String
  title : String
  description : Option String
deriving Repr, DecidableEq

/-- Table descriptor (pydantic model TableData, server.py lines 135-139).
Pydantic validates the field types only: the model declares no validator
relating the length of the rows to the length of the headers. -/
structure TableData where
  headers : List String
  rows : List (List Cell)
  title : String
  description : Option String
deriving Repr, DecidableEq

/-- Response envelope (pydantic model ChatResponse, server.py
lines 141-148), including the backward-compatibility fields. -/
structure ChatResponse where
  response : String
  charts : List ChartData
  tables : List TableData
  summary_points : List String
  chart_data : Option (List (String × Cell))
  chart_type : Option String
deriving Repr, DecidableEq

/-- Python exceptions that the formatting paths can raise; each is caught
by a handler modelled at the same place as in the source. -/
inductive PyErr where
  | keyError (k : String)
  | indexError
  | attributeError (missing : String)
deriving Repr, DecidableEq

/-- Numeric display formatting (Python format specs such as `:,.0f` and
`:.1f`, and isoformat date strings) is abstracted by toString; no
verified property reads these prose fragments. -/
def fmtRat (q : Rat) : String := toString q

/-- See fmtRat. -/
def fmtNat (n : Nat) : String := toString n

/-- See fmtRat. -/
def fmtInt (i : Int) : String := toString i

/-- Python string slice `s[:n]`. -/
def strTake (s : String) (n : Nat) : String :=
  ⟨s.data.take n⟩

/-- AnalyticsService.create_no_data_response (server.py
lines 1072-1091): fixed envelope, empty charts and tables. -/
def create_no_data_response (user_query : String) : ChatResponse :=
  { response := "## No Data Available\n\nSorry, no graphs or insights available for your query. Please try rephrasing it.\n\n**Suggestions:**\n- Try asking about general topics like 'top investors' or 'regional analysis'\n- Use broader time periods or geographic regions\n- Check the sample questions in the sidebar for examples\n"
    charts := []
    tables := []
    summary_points :=
      ["No matching data found in our database",
       "Try using different search terms or time periods",
       "Check if the requested information exists in our current dataset",
       "Browse sample questions for inspiration"]
    chart_data := none
    chart_type := none }

/-- AnalyticsService.create_domain_irrelevant_response (server.py
lines 1257-1279): the fixed "Not My Area of Expertise" envelope, empty
charts and tables.  The user_query argument is ignored, as in the
source. -/
def create_domain_irrelevant_response (user_query : String) : ChatResponse :=
  { response := "## Not My Area of Expertise\n\nSorry, I can only assist with **real estate auctions, properties, bids, and investor analytics**.\n\n**I can help you with:**\n- Investor performance and bidding analysis\n- Property market trends and pricing\n- Regional auction activity\n- Bidding strategies and success rates\n- Market insights and forecasts\n\nPlease ask me something related to real estate auctions or check the sample questions in the sidebar."
    charts := []
    tables := []
    summary_points :=
      ["I specialize only in real estate auction analytics",
       "Try asking about investors, properties, bids, or market trends",
       "Check the sample questions for examples",
       "I cannot help with topics outside real estate and auctions"]
    chart_data := none
    chart_type := none }

/-- The fixed envelope returned by analyze_query when
fetch_structured_data reports an error (server.py lines 1298-1302). -/
def fetch_error_response : ChatResponse :=
  { response := "Sorry, we encountered an error while fetching the data. Please try again."
    charts := []
    tables := []
    summary_points := ["Database query failed", "Please retry your request"]
    chart_data := none
    chart_type := none }

/-- The envelope of the outer except handler of analyze_query (server.py
lines 1312-1319).  Every step of the modelled pipeline is total, so this
envelope is unreachable from analyze_query below; it is kept for
completeness. -/
def processing_error_response : ChatResponse :=
  { response := "Sorry, we couldn't find any relevant records for this query. Try rephrasing or checking auction filters."
    charts := []
    tables := []
    summary_points :=
      ["Query processing encountered an error",
       "Try rephrasing your question or using simpler terms",
       "Check if the requested data exists in our current dataset"]
    chart_data := none
    chart_type := none }

/-! ## Per-intent manual formatters (server.py lines 758-1070) -/

/-- AnalyticsService.create_top_investors_enhanced_response (server.py
lines 783-844).  The enriched investor dicts built by
get_top_investors_data carry no "won_auctions" key, so with a nonempty
list the first loop iteration (line 795, `inv["won_auctions"]`) raises
KeyError; with an empty list the loop is skipped, the charts and the
table are built, and then `investors[0]` inside the summary points
(line 833) raises IndexError.  The call therefore never returns normally;
its caller catches the exception and falls back to the no-data
response. -/
def create_top_investors_enhanced_response (investors_data : List EnrichedInvestor) :
    Except PyErr ChatResponse :=
  match investors_data.take 5 with
  | [] => .error .indexError
  | _ :: _ => .error (.keyError "won_auctions")

/-- One per-winner block of the response prose (server.py
lines 944-949). -/
def winnerBlock (i : Nat) (x : QualifiedWinner) : String :=
  "**" ++ fmtNat i ++ ". " ++ x.name ++ "** (" ++ x.location ++ ")\n"
    ++ "   - **Properties Won**: " ++ fmtNat x.properties_won_last_month ++ "\n"
    ++ "   - **Total Spent**: $" ++ fmtRat x.total_spent_last_month ++ "\n"
    ++ "   - **Average Winning Bid**: $" ++ fmtRat x.average_winning_bid ++ "\n"
    ++ "   - **Overall Success Rate**: " ++ fmtRat x.overall_success_rate ++ "%\n\n"

/-- AnalyticsService.create_last_month_winners_enhanced_response
(server.py lines 909-1009).  The winners payload built by the modelled
get_last_month_winners_data never carries an error key, so the error
branch of line 911 is unreachable here.  With no qualified winner the
envelope of lines 919-937 is returned (empty charts and tables);
otherwise three charts and one seven-column table are built. -/
def create_last_month_winners_enhanced_response (w : WinnersData) : ChatResponse :=
  match w.qualified_winners with
  | [] =>
    { response := "## 🏆 Last Month's Multiple Property Winners\n\n"
        ++ "**No investors won more than 2 properties in the last month.**\n\n"
        ++ "**Analysis Period**: " ++ fmtInt w.query_period.start_date ++ " to "
        ++ fmtInt w.query_period.end_date ++ "\n\n"
        ++ "This could indicate:\n"
        ++ "- Highly competitive market with wins distributed among many investors\n"
        ++ "- Most investors are focusing on single high-value acquisitions\n"
        ++ "- Limited auction volume during this period\n"
      charts := []
      tables := []
      summary_points :=
        ["Analyzed " ++ fmtNat w.summary_stats.total_ended_auctions_last_month
           ++ " completed auctions",
         fmtNat w.summary_stats.investors_with_wins ++ " investors had at least one win",
         "No investor won more than 2 properties in the analyzed period",
         "Market appears highly competitive with distributed wins"]
      chart_data := none
      chart_type := none }
  | q0 :: _ =>
    { response := "## 🏆 Last Month's Multiple Property Winners\n\n"
        ++ "**Found " ++ fmtNat w.qualified_winners.length
        ++ " investors who won more than 2 properties in the last month.**\n\n"
        ++ "**Analysis Period**: " ++ fmtInt w.query_period.start_date ++ " to "
        ++ fmtInt w.query_period.end_date ++ "\n\n"
        ++ String.join ((w.qualified_winners.take 5).enum.map
            (fun p => winnerBlock (p.1 + 1) p.2))
      charts :=
        [{ data := w.qualified_winners.map (fun x =>
             [("name", Cell.str (strTake x.name 20)),
              ("properties_won", Cell.nat x.properties_won_last_month),
              ("total_spent", Cell.rat x.total_spent_last_month)])
           type := "bar"
           title := "Properties Won Last Month by Investor"
           description := some "Number of properties won by each qualifying investor" },
         { data := w.qualified_winners.map (fun x =>
             [("name", Cell.str (strTake x.name 15)),
              ("value", Cell.rat x.total_spent_last_month)])
           type := "donut"
           title := "Investment Distribution"
           description := some "Total amount spent by each investor last month" },
         { data := w.qualified_winners.map (fun x =>
             [("investor", Cell.str (strTake x.name 15)),
              ("avg_bid", Cell.rat x.average_winning_bid),
              ("success_rate", Cell.rat x.overall_success_rate)])
           type := "line"
           title := "Average Winning Bid vs Success Rate"
           description :=
             some "Relationship between average bid amounts and overall success rates" }]
      tables :=
        [{ headers := ["Investor", "Location", "Properties Won", "Total Spent",
             "Avg Winning Bid", "Success Rate", "Status"]
           rows := w.qualified_winners.map (fun x =>
             [Cell.str x.name,
              Cell.str x.location,
              Cell.nat x.properties_won_last_month,
              Cell.str ("$" ++ fmtRat x.total_spent_last_month),
              Cell.str ("$" ++ fmtRat x.average_winning_bid),
              Cell.str (fmtRat x.overall_success_rate ++ "%"),
              Cell.str (if x.profile_verified then "Verified" else "Unverified")])
           title := "Multiple Property Winners - Last Month Analysis"
           description :=
             some "Comprehensive breakdown of investors who won more than 2 properties" }]
      summary_points :=
        ["Top performer: " ++ q0.name ++ " won " ++ fmtNat q0.properties_won_last_month
           ++ " properties",
         "Total value transacted by these investors: $"
           ++ fmtRat w.summary_stats.total_value_transacted,
         "Average properties won per investor: "
           ++ fmtRat ((w.summary_stats.total_properties_won : Rat)
             / (w.qualified_winners.length : Rat)),
         "These " ++ fmtNat w.qualified_winners.length
           ++ " investors represent the most active buyers in the market"]
      chart_data := none
      chart_type := none }

/-- One per-region block of the response prose (server.py
lines 853-857). -/
def regionBlock (r : RegionEntry) : String :=
  "**" ++ r.city ++ ", " ++ r.state ++ "**\n"
    ++ "   - Market Value: **$" ++ fmtRat r.total_value ++ "**\n"
    ++ "   - Properties: **" ++ fmtNat r.properties ++ "** | Auctions: **"
    ++ fmtNat r.auctions ++ "**\n"
    ++ "   - Avg Price: **$" ++ fmtRat r.avg_reserve_price ++ "**\n\n"

/-- Python `max(regions, key=lambda x: x["auctions"])` on a nonempty
list: the first element with the maximal auction count. -/
def maxByAuctions (r0 : RegionEntry) (rest : List RegionEntry) : RegionEntry :=
  rest.foldl (fun acc r => if acc.auctions < r.auctions then r else acc) r0

/-- AnalyticsService.create_regional_enhanced_response (server.py
lines 846-907).  With an empty region list the prose, the charts and the
table are all built over the empty list, and then `regions[0]` inside the
summary points (line 896) raises IndexError, which the caller turns into
the no-data response; otherwise three charts and one seven-column table
are built. -/
def create_regional_enhanced_response (regional_data : List RegionEntry) :
    Except PyErr ChatResponse :=
  match regional_data.take 6 with
  | [] => .error .indexError
  | r0 :: rest =>
    let regions := r0 :: rest
    .ok
      { response := "## 🌍 Regional Market Performance Analysis\n\n"
          ++ "**Comprehensive analysis of auction activity across key metropolitan markets:**\n\n"
          ++ String.join (regions.map regionBlock)
        charts :=
          [{ data := regions.map (fun r =>
               [("city", Cell.str (r.city ++ ", " ++ r.state)),
                ("market_value", Cell.rat r.total_value),
                ("properties", Cell.nat r.properties)])
             type := "bar"
             title := "Market Value by Region"
             description := some "Total property value comparison across metropolitan areas" },
           { data := regions.map (fun r =>
               [("name", Cell.str r.city), ("value", Cell.nat r.properties)])
             type := "donut"
             title := "Property Distribution by City"
             description := some "Share of total properties in each market" },
           { data := regions.map (fun r =>
               [("city", Cell.str r.city),
                ("avg_price", Cell.rat r.avg_reserve_price),
                ("bid_activity", Cell.rat r.avg_bids_per_auction)])
             type := "line"
             title := "Average Property Prices & Bid Activity"
             description := some "Price trends and bidding intensity across markets" }]
        tables :=
          [{ headers := ["City", "State", "Properties", "Auctions", "Market Value",
               "Avg Price", "Avg Bids/Auction"]
             rows := regions.map (fun r =>
               [Cell.str r.city,
                Cell.str r.state,
                Cell.nat r.properties,
                Cell.nat r.auctions,
                Cell.str ("$" ++ fmtRat r.total_value),
                Cell.str ("$" ++ fmtRat r.avg_reserve_price),
                Cell.str (fmtRat r.avg_bids_per_auction)])
             title := "Regional Market Analysis"
             description :=
               some "Detailed breakdown of auction activity and property values by region" }]
        summary_points :=
          ["Highest value market: " ++ r0.city ++ " with $" ++ fmtRat r0.total_value,
           "Most active region: " ++ (maxByAuctions r0 rest).city ++ " with "
             ++ fmtNat (maxByAuctions r0 rest).auctions ++ " auctions",
           "Price range: $" ++ fmtRat (listMin (regions.map (fun r => r.avg_reserve_price)))
             ++ " - $" ++ fmtRat (listMax (regions.map (fun r => r.avg_reserve_price))),
           "Significant regional variations indicate diverse investment opportunities"]
        chart_data := none
        chart_type := none }

/-- The raw_counts dict of fetch_structured_data (server.py
lines 333-338). -/
structure RawCounts where
  total_users : Nat
  total_properties : Nat
  total_auctions : Nat
  total_bids : Nat
deriving Repr, DecidableEq

/-- AnalyticsService.create_general_enhanced_response (server.py
lines 1011-1070): two charts and one four-column table built from the
raw collection counts, the only part of structured_data this function
reads. -/
def create_general_enhanced_response (rc : RawCounts) : ChatResponse :=
  { response := "## 📊 Platform Analytics Overview\n\n"
      ++ "**Current auction ecosystem performance metrics:**\n\n"
      ++ "- **Total Properties**: " ++ fmtNat rc.total_properties ++ " available for auction\n"
      ++ "- **Active Auctions**: " ++ fmtNat rc.total_auctions ++ " currently running\n"
      ++ "- **Registered Investors**: " ++ fmtNat rc.total_users ++ " active participants\n"
      ++ "- **Total Bids**: " ++ fmtNat rc.total_bids ++ " placed across platform\n"
    charts :=
      [{ data :=
           [[("metric", Cell.str "Properties"), ("count", Cell.nat rc.total_properties)],
            [("metric", Cell.str "Auctions"), ("count", Cell.nat rc.total_auctions)],
            [("metric", Cell.str "Investors"), ("count", Cell.nat rc.total_users)],
            [("metric", Cell.str "Bids"), ("count", Cell.nat rc.total_bids)]]
         type := "bar"
         title := "Platform Activity Overview"
         description := some "Key performance indicators across the auction platform" },
       { data :=
           [[("category", Cell.str "Residential"), ("value", Cell.nat 60)],
            [("category", Cell.str "Commercial"), ("value", Cell.nat 25)],
            [("category", Cell.str "Industrial"), ("value", Cell.nat 15)]]
         type := "donut"
         title := "Property Type Distribution"
         description := some "Market share by property category" }]
    tables :=
      [{ headers := ["Metric", "Current Count", "Status", "Growth"]
         rows :=
           [[Cell.str "Properties Listed", Cell.nat rc.total_properties,
             Cell.str "Active", Cell.str "+12%"],
            [Cell.str "Live Auctions", Cell.nat rc.total_auctions,
             Cell.str "Running", Cell.str "+8%"],
            [Cell.str "Registered Users", Cell.nat rc.total_users,
             Cell.str "Active", Cell.str "+15%"],
            [Cell.str "Total Bids", Cell.nat rc.total_bids,
             Cell.str "Processed", Cell.str "+22%"]]
         title := "Platform Performance Summary"
         description := some "Key metrics and growth indicators for the auction platform" }]
    summary_points :=
      ["Platform hosts " ++ fmtNat rc.total_properties ++ " properties across multiple markets",
       fmtNat rc.total_users ++ " active investors driving market engagement",
       "Average of " ++ fmtNat (rc.total_bids / max rc.total_auctions 1) ++ " bids per auction",
       "Strong platform activity indicates healthy auction marketplace"]
    chart_data := none
    chart_type := none }

/-! ## Structured data, external effects, and the main pipeline
(server.py lines 314-372, 668-781, 1281-1319) -/

/-- Per-intent structured payload (the "data" entry built by
fetch_structured_data, server.py lines 340-366).  The payloads of the
constructors without arguments are read by no modelled formatting path:
create_enhanced_manual_response inspects only the keys "top_investors",
"bidding_analysis" and "regional_analysis" and the winners dict, and the
general branch reads raw_counts alone, so the contents of the remaining
aggregates are irrelevant to every verified property and are not
modelled. -/
inductive IntentData where
  | topInvestors (d : TopInvestorsData)
  | lastMonthWinners (d : WinnersData)
  | auctionSummary
  | propertyAnalysis
  | biddingTrends
  | regionalAnalysis (d : RegionalData)
  | priceAnalysis
  | auctionStatus
  | generalAnalysis
deriving Repr, DecidableEq

/-- Python `"top_investors" in data` plus the keyed access: only the
top-investors payload carries that key. -/
def IntentData.topInvestorsKey : IntentData → Option TopInvestorsData
  | .topInvestors d => some d
  | _ => none

/-- Python `"regional_analysis" in data` plus the keyed access. -/
def IntentData.regionalKey : IntentData → Option RegionalData
  | .regionalAnalysis d => some d
  | _ => none

/-- Python `"bidding_analysis" in data` (server.py line 770).  The
bidding aggregator returns its payload under the key "bidding_trends"
(server.py line 1477), never "bidding_analysis", so this membership test
is false for every payload: the bidding branch of the manual formatter is
dead code (it would call the undefined method
create_bidding_enhanced_response, an AttributeError). -/
def IntentData.biddingAnalysisKey : IntentData → Option Unit
  | _ => none

/-- The winners dict as seen by the manual formatter when the intent is
last_month_winners (server.py lines 766-767, 914-916).  For any other
payload shape the `.get` defaults apply: empty winner list, zero
stats. -/
def IntentData.asWinners : IntentData → WinnersData
  | .lastMonthWinners d => d
  | _ =>
    { qualified_winners := []
      query_period := { start_date := 0, end_date := 0 }
      summary_stats :=
        { total_ended_auctions_last_month := 0, investors_with_wins := 0,
          investors_with_2plus_wins := 0, total_properties_won := 0,
          total_value_transacted := 0 } }

/-- The structured_data dict on the success path of fetch_structured_data
(server.py lines 320-368); the error path is the Except.error case of the
fetch below. -/
structure StructuredData where
  intent : String
  data : IntentData
  raw_counts : RawCounts
deriving Repr, DecidableEq

/-- A successfully parsed external text-generation output (the `result`
dict of server.py line 727 after `json.loads`).  The fields mirror
`result.get(...)` with their defaults; the charts and tables already
passed the pydantic constructors of server.py lines 731-737, which
validate field types but not row lengths. -/
structure LLMParsed where
  response : Option String
  charts : List ChartData
  tables : List TableData
  summary_points : Option (List String)
deriving Repr, DecidableEq

/-- Outcome of the external text-generation call of
analyze_query_with_data: the call itself raised (outer except,
server.py line 753), the output failed to parse or validate (inner
except, line 746), or a parsed envelope came back. -/
inductive LLMOutcome where
  | callError
  | parseFail
  | parsed (p : LLMParsed)
deriving Repr, DecidableEq

/-- The external world of one analyze_query call: the four collections
behind the document store, the clock, whether the bulk fetch raises, and
the outcome of the optional text-generation call. -/
structure Env where
  users : List User
  properties : List Property
  auctions : List Auction
  bids : List Bid
  now : Int
  fetchExc : Option String
  llm : LLMOutcome
deriving Repr, DecidableEq

/-- AnalyticsService.fetch_structured_data (server.py lines 314-372).
Each collection is read with `.to_list(100)`, capping it at 100
documents.  `env.fetchExc = some e` models the database fetch raising,
which the except branch of line 370 turns into the error dict
`{"error": e, "data": {}}`, modelled as `Except.error e`. -/
def fetch_structured_data (intent_info : IntentInfo) (env : Env) :
    Except String StructuredData :=
  match env.fetchExc with
  | some e => .error e
  | none =>
    let users := env.users.take 100
    let properties := env.properties.take 100
    let auctions := env.auctions.take 100
    let bids := env.bids.take 100
    let raw_counts : RawCounts :=
      { total_users := users.length
        total_properties := properties.length
        total_auctions := auctions.length
        total_bids := bids.length }
    let data : IntentData :=
      if intent_info.primary_intent == "top_bidders"
          || intent_info.primary_intent == "top_investors" then
        .topInvestors (get_top_investors_data users bids intent_info.entities)
      else if intent_info.primary_intent == "last_month_winners" then
        .lastMonthWinners
          (get_last_month_winners_data users auctions bids intent_info.entities env.now)
      else if intent_info.primary_intent == "auction_summary" then .auctionSummary
      else if intent_info.primary_intent == "property_analysis" then .propertyAnalysis
      else if intent_info.primary_intent == "bidding_trends" then .biddingTrends
      else if intent_info.primary_intent == "regional_analysis" then
        .regionalAnalysis (get_regional_analysis_data properties auctions bids intent_info.entities)
      else if intent_info.primary_intent == "price_analysis" then .priceAnalysis
      else if intent_info.primary_intent == "live_auctions"
          || intent_info.primary_intent == "upcoming_auctions"
          || intent_info.primary_intent == "completed_auctions"
          || intent_info.primary_intent == "cancelled_auctions" then .auctionStatus
      else .generalAnalysis
    .ok { intent := intent_info.primary_intent, data := data, raw_counts := raw_counts }

/-- Last two branches of create_enhanced_manual_response (server.py
lines 772-776): the raw_counts dict on this path always has its four
keys, so its Python truthiness holds and only `sum(...) > 0` decides. -/
def manualBranchGeneral (user_query : String) (sd : StructuredData) :
    Except PyErr ChatResponse :=
  if 0 < sd.raw_counts.total_users + sd.raw_counts.total_properties
      + sd.raw_counts.total_auctions + sd.raw_counts.total_bids then
    .ok (create_general_enhanced_response sd.raw_counts)
  else
    .ok (create_no_data_response user_query)

/-- Bidding branch of create_enhanced_manual_response (server.py
lines 770-771); dead in practice, see IntentData.biddingAnalysisKey. -/
def manualBranchBidding (user_query : String) (sd : StructuredData) :
    Except PyErr ChatResponse :=
  if sd.intent == "bidding_trends" then
    match sd.data.biddingAnalysisKey with
    | some _ => .error (.attributeError "create_bidding_enhanced_response")
    | none => manualBranchGeneral user_query sd
  else
    manualBranchGeneral user_query sd

/-- Regional branch of create_enhanced_manual_response (server.py
lines 768-769). -/
def manualBranchRegional (user_query : String) (sd : StructuredData) :
    Except PyErr ChatResponse :=
  if sd.intent == "regional_analysis" then
    match sd.data.regionalKey with
    | some rd => create_regional_enhanced_response rd.regional_analysis
    | none => manualBranchBidding user_query sd
  else
    manualBranchBidding user_query sd

/-- Winners branch of create_enhanced_manual_response (server.py
lines 766-767). -/
def manualBranchWinners (user_query : String) (sd : StructuredData) :
    Except PyErr ChatResponse :=
  if sd.intent == "last_month_winners" then
    .ok (create_last_month_winners_enhanced_response sd.data.asWinners)
  else
    manualBranchRegional user_query sd

/-- The try body of create_enhanced_manual_response (server.py
lines 760-776): the elif cascade over the intent and the payload keys. -/
def create_enhanced_manual_response_body (user_query : String) (sd : StructuredData) :
    Except PyErr ChatResponse :=
  if sd.intent == "top_investors" then
    match sd.data.topInvestorsKey with
    | some ti => create_top_investors_enhanced_response ti.top_investors
    | none => manualBranchWinners user_query sd
  else
    manualBranchWinners user_query sd

/-- AnalyticsService.create_enhanced_manual_response (server.py
lines 758-781): any exception from the per-intent builders is caught and
turned into the no-data response. -/
def create_enhanced_manual_response (user_query : String) (sd : StructuredData) :
    ChatResponse :=
  match create_enhanced_manual_response_body user_query sd with
  | .ok r => r
  | .error _ => create_no_data_response user_query

/-- The ChatResponse built from a parsed external text-generation output
(server.py lines 739-744). -/
def llmEnvelope (p : LLMParsed) : ChatResponse :=
  { response := p.response.getD "Enhanced analysis complete."
    charts := p.charts
    tables := p.tables
    summary_points := p.summary_points.getD []
    chart_data := none
    chart_type := none }

/-- AnalyticsService.analyze_query_with_data (server.py lines 668-756):
a parsed external envelope is converted through the pydantic constructors
and returned; a parse or validation failure enters the inner except of
line 746, whose no-data guard (line 749) is always false on this path
(the data payload and raw_counts dicts coming from a successful fetch are
nonempty), so the manual formatter runs; an error from the external call
itself enters the outer except of line 753 and returns the no-data
response. -/
def analyze_query_with_data (user_query : String) (sd : StructuredData) (env : Env) :
    ChatResponse :=
  match env.llm with
  | .callError => create_no_data_response user_query
  | .parseFail => create_enhanced_manual_response user_query sd
  | .parsed p => llmEnvelope p

/-- AnalyticsService.analyze_query (server.py lines 1281-1319): the
domain gate first, then intent parsing, the bulk fetch (whose error dict
becomes the fixed fetch-error envelope), and the enhanced analysis.
Every step of the model is a total function — each Python exception site
is caught by the handler modelled at the same place — so the outer except
of line 1310 (processing_error_response) is unreachable and every call
returns a well-formed envelope. -/
def analyze_query (user_query : String) (env : Env) : ChatResponse :=
  if !(is_domain_relevant user_query) then
    create_domain_irrelevant_response user_query
  else
    let intent_info := parse_intent user_query
    match fetch_structured_data intent_info env with
    | .error _ => fetch_error_response
    | .ok structured_data => analyze_query_with_data user_query structured_data env

/-! ## Verified properties -/

/-- Two envelopes with different prose differ. -/
theorem respNe {a b : ChatResponse} (h : ¬ a.response = b.response) : ¬ a = b :=
  fun he => h (congrArg ChatResponse.response he)

/-- Two envelopes with different chart counts differ. -/
theorem chartsLenNe {a b : ChatResponse} (h : ¬ a.charts.length = b.charts.length) : ¬ a = b :=
  fun he => h (congrArg (fun r => r.charts.length) he)

/-- Two envelopes whose fourth summary points differ differ. -/
theorem summaryIdxNe {a b : ChatResponse}
    (h : ¬ a.summary_points.getD 3 "" = b.summary_points.getD 3 "") : ¬ a = b :=
  fun he => h (congrArg (fun r => r.summary_points.getD 3 "") he)

/-- The head of a filtered list is the first element satisfying the
predicate. -/
theorem filterHeadEqFind {α : Type} (p : α → Bool) (l : List α) :
    (l.filter p).head? = l.find? p := by
  induction l with
  | nil => rfl
  | cons a t ih =>
    by_cases h : p a
    · simp [List.filter_cons, List.find?_cons, h]
    · simp [List.filter_cons, List.find?_cons, h, ih]

/-- C6: for every query, the primary intent is the earliest intent of the
fixed table one of whose phrases occurs in the lower-cased query, and the
default general_analysis intent when none matches; overlaps resolve to the
earliest-declared matching intent. -/
theorem claim_C6 (user_query : String) :
    (parse_intent user_query).primary_intent =
      match intent_patterns.find?
          (fun ip => ip.2.any (fun pat => containsSubstr pat (lowerString user_query))) with
      | some ip => ip.1
      | none => "general_analysis" := by
  unfold parse_intent
  rw [← filterHeadEqFind]
  cases hl : intent_patterns.filter
      (fun ip => ip.2.any (fun pat => containsSubstr pat (lowerString user_query))) with
  | nil => simp [hl]
  | cons a t => simp [hl]

/-- C7: the query "Who are the top 5 investors by bid amount?" classifies
to a primary intent in {top_bidders, top_investors} and its extracted
numbers entity list is [5]. -/
theorem claim_C7 :
    ((parse_intent "Who are the top 5 investors by bid amount?").primary_intent = "top_bidders"
      ∨ (parse_intent "Who are the top 5 investors by bid amount?").primary_intent
          = "top_investors")
    ∧ (parse_intent "Who are the top 5 investors by bid amount?").entities.numbers = [5] :=
  ⟨Or.inr (by decide), by decide⟩

/-- C3: a query containing an out-of-domain keyword under word-boundary
matching short-circuits to the fixed "Not My Area of Expertise" envelope
with empty charts and tables, for every environment (so no intent
classification, fetch, or aggregation influences the result). -/
theorem claim_C3 (user_query : String) (env : Env) (kw : String)
    (h1 : kw ∈ irrelevant_keywords)
    (h2 : containsWord kw (lowerString user_query) = true) :
    analyze_query user_query env = create_domain_irrelevant_response user_query ∧
    (analyze_query user_query env).charts = [] ∧
    (analyze_query user_query env).tables = [] := by
  have hirr : irrelevant_keywords.any (fun k2 => containsWord k2 (lowerString user_query))
      = true := List.any_eq_true.mpr ⟨kw, h1, h2⟩
  have hrel : is_domain_relevant user_query = false := by
    unfold is_domain_relevant
    simp [hirr]
  have hmain : analyze_query user_query env = create_domain_irrelevant_response user_query := by
    unfold analyze_query
    rw [hrel]
    rfl
  exact ⟨hmain, by rw [hmain]; rfl, by rw [hmain]; rfl⟩

/-- The environment with empty collections, a healthy fetch, and a failed
external generation parse: the all-local code path. -/
def emptyEnv : Env :=
  { users := [], properties := [], auctions := [], bids := [], now := 0,
    fetchExc := none, llm := .parseFail }

/-- Witness for C3 at the concrete query "pizza". -/
theorem claim_C3_witness :
    "pizza" ∈ irrelevant_keywords
    ∧ containsWord "pizza" (lowerString "pizza") = true
    ∧ analyze_query "pizza" emptyEnv = create_domain_irrelevant_response "pizza" :=
  ⟨by decide, by decide, (claim_C3 "pizza" emptyEnv "pizza" (by decide) (by decide)).1⟩

/-- C8: when the domain gate passes and the bulk data fetch raises,
analyze_query returns the fixed "please try again" envelope (and, the
model being total, no exception reaches the caller on any path). -/
theorem claim_C8 (user_query : String) (env : Env)
    (h1 : is_domain_relevant user_query = true)
    (h2 : env.fetchExc.isSome = true) :
    analyze_query user_query env = fetch_error_response := by
  cases he : env.fetchExc with
  | none => rw [he] at h2; simp at h2
  | some e => simp [analyze_query, h1, fetch_structured_data, he]

/-- The empty environment whose fetch raises. -/
def envFetchFail : Env :=
  { users := [], properties := [], auctions := [], bids := [], now := 0,
    fetchExc := some "connection refused", llm := .parseFail }

/-- Witness for C8 at the concrete query "auction". -/
theorem claim_C8_witness :
    is_domain_relevant "auction" = true
    ∧ envFetchFail.fetchExc.isSome = true
    ∧ analyze_query "auction" envFetchFail = fetch_error_response :=
  ⟨by decide, by decide, claim_C8 "auction" envFetchFail (by decide) (by decide)⟩

/-- The no-data envelope is not the domain-irrelevant envelope.  Both
envelopes ignore their query argument, so the comparison is settled on
the closed instances by kernel reduction. -/
theorem noDataNeIrrelevant (q q2 : String) :
    ¬ create_no_data_response q = create_domain_irrelevant_response q2 :=
  fun h =>
    (show ¬ create_no_data_response "" = create_domain_irrelevant_response "" by decide) h

/-- The fetch-error envelope is not the domain-irrelevant envelope. -/
theorem fetchErrorNeIrrelevant (q2 : String) :
    ¬ fetch_error_response = create_domain_irrelevant_response q2 :=
  fun h =>
    (show ¬ fetch_error_response = create_domain_irrelevant_response "" by decide) h

/-- The general-overview envelope (two charts) is not the
domain-irrelevant envelope (no charts). -/
theorem generalNeIrrelevant (rc : RawCounts) (q2 : String) :
    ¬ create_general_enhanced_response rc = create_domain_irrelevant_response q2 := by
  apply chartsLenNe
  intro h
  have h2 : (2 : Nat) = 0 := h
  exact absurd h2 (by decide)

/-- The winners envelope is not the domain-irrelevant envelope: with no
qualified winner its fourth summary point differs, otherwise it carries
three charts. -/
theorem winnersNeIrrelevant (w : WinnersData) (q2 : String) :
    ¬ create_last_month_winners_enhanced_response w = create_domain_irrelevant_response q2 := by
  unfold create_last_month_winners_enhanced_response
  cases w.qualified_winners with
  | nil =>
    apply summaryIdxNe
    intro h
    have h2 : "Market appears highly competitive with distributed wins"
        = "I cannot help with topics outside real estate and auctions" := h
    exact absurd h2 (by decide)
  | cons q0 t =>
    apply chartsLenNe
    intro h
    have h2 : (3 : Nat) = 0 := h
    exact absurd h2 (by decide)

/-- A regional envelope that is returned normally carries three charts,
so it is not the domain-irrelevant envelope. -/
theorem regionalOkNeIrrelevant (rd : List RegionEntry) (r : ChatResponse) (q2 : String)
    (h : create_regional_enhanced_response rd = .ok r) :
    ¬ r = create_domain_irrelevant_response q2 := by
  unfold create_regional_enhanced_response at h
  rcases ht : rd.take 6 with _ | ⟨r0, rest⟩
  · rw [ht] at h
    exact absurd h (by simp)
  · rw [ht] at h
    obtain rfl := Except.ok.inj h
    apply chartsLenNe
    intro h2
    have h3 : (3 : Nat) = 0 := h2
    exact absurd h3 (by decide)

/-- The top-investors formatter never returns normally (see its doc
comment). -/
theorem topInvNeverOk (l : List EnrichedInvestor) (r : ChatResponse) :
    ¬ create_top_investors_enhanced_response l = .ok r := by
  unfold create_top_investors_enhanced_response
  cases l.take 5 <;> simp

/-- Any normal result of the general fallback branch differs from the
domain-irrelevant envelope. -/
theorem generalBranchOkNe (q : String) (sd : StructuredData) (r : ChatResponse) (q2 : String)
    (h : manualBranchGeneral q sd = .ok r) :
    ¬ r = create_domain_irrelevant_response q2 := by
  unfold manualBranchGeneral at h
  split at h
  · obtain rfl := Except.ok.inj h
    exact generalNeIrrelevant _ _
  · obtain rfl := Except.ok.inj h
    exact noDataNeIrrelevant _ _

/-- Any normal result of the bidding branch differs from the
domain-irrelevant envelope. -/
theorem biddingBranchOkNe (q : String) (sd : StructuredData) (r : ChatResponse) (q2 : String)
    (h : manualBranchBidding q sd = .ok r) :
    ¬ r = create_domain_irrelevant_response q2 := by
  unfold manualBranchBidding at h
  simp only [IntentData.biddingAnalysisKey] at h
  split at h
  · exact generalBranchOkNe q sd r q2 h
  · exact generalBranchOkNe q sd r q2 h

/-- Any normal result of the regional branch differs from the
domain-irrelevant envelope. -/
theorem regionalBranchOkNe (q : String) (sd : StructuredData) (r : ChatResponse) (q2 : String)
    (h : manualBranchRegional q sd = .ok r) :
    ¬ r = create_domain_irrelevant_response q2 := by
  unfold manualBranchRegional at h
  split at h
  · cases hk : sd.data.regionalKey with
    | some rd => rw [hk] at h; exact regionalOkNeIrrelevant _ _ _ h
    | none => rw [hk] at h; exact biddingBranchOkNe q sd r q2 h
  · exact biddingBranchOkNe q sd r q2 h

/-- Any normal result of the winners branch differs from the
domain-irrelevant envelope. -/
theorem winnersBranchOkNe (q : String) (sd : StructuredData) (r : ChatResponse) (q2 : String)
    (h : manualBranchWinners q sd = .ok r) :
    ¬ r = create_domain_irrelevant_response q2 := by
  unfold manualBranchWinners at h
  split at h
  · obtain rfl := Except.ok.inj h
    exact winnersNeIrrelevant _ _
  · exact regionalBranchOkNe q sd r q2 h

/-- Any normal result of the manual formatter cascade differs from the
domain-irrelevant envelope. -/
theorem manualBodyOkNe (q : String) (sd : StructuredData) (r : ChatResponse) (q2 : String)
    (h : create_enhanced_manual_response_body q sd = .ok r) :
    ¬ r = create_domain_irrelevant_response q2 := by
  unfold create_enhanced_manual_response_body at h
  split at h
  · cases hk : sd.data.topInvestorsKey with
    | some ti => rw [hk] at h; exact absurd h (topInvNeverOk _ _)
    | none => rw [hk] at h; exact winnersBranchOkNe q sd r q2 h
  · exact winnersBranchOkNe q sd r q2 h

/-- The manual formatter never returns the domain-irrelevant envelope. -/
theorem manualNeIrrelevant (q : String) (sd : StructuredData) (q2 : String) :
    ¬ create_enhanced_manual_response q sd = create_domain_irrelevant_response q2 := by
  unfold create_enhanced_manual_response
  cases hb : create_enhanced_manual_response_body q sd with
  | ok r => exact manualBodyOkNe q sd r q2 hb
  | error e => exact noDataNeIrrelevant _ _

/-- C1 as frozen is refuted by a query that carries both an in-domain
keyword ("property") and an out-of-domain keyword ("weather"): the
out-of-domain check runs first and wins, so respond returns the
domain-irrelevant envelope despite the in-domain match. -/
theorem claim_C1_counterexample :
    inDomainSignal "property weather" = true
    ∧ analyze_query "property weather" emptyEnv
        = create_domain_irrelevant_response "property weather" :=
  ⟨by decide, rfl⟩

/-- C1 (amended): for every query matching at least one in-domain keyword
or phrase of the gate AND containing no out-of-domain keyword under
word-boundary matching, respond never returns the domain-irrelevant
envelope — provided the external text-generation output, when one parses,
is not itself byte-identical to that envelope. -/
theorem claim_C1_amended (user_query : String) (env : Env)
    (hin : inDomainSignal user_query = true)
    (hout : ∀ kw ∈ irrelevant_keywords, containsWord kw (lowerString user_query) = false)
    (hllm : ∀ p, env.llm = LLMOutcome.parsed p
      → ¬ llmEnvelope p = create_domain_irrelevant_response user_query) :
    ¬ analyze_query user_query env = create_domain_irrelevant_response user_query := by
  have h1 : irrelevant_keywords.any (fun kw => containsWord kw (lowerString user_query))
      = false := by
    rw [List.any_eq_false]
    intro kw hkw
    simp [hout kw hkw]
  have hin2 : domain_keywords.any (fun kw => containsSubstr kw (lowerString user_query)) = true
      ∨ real_estate_phrases.any (fun p => containsSubstr p (lowerString user_query)) = true := by
    simp only [inDomainSignal, Bool.or_eq_true] at hin
    exact hin
  have hrel : is_domain_relevant user_query = true := by
    cases hA : domain_keywords.any (fun kw => containsSubstr kw (lowerString user_query)) with
    | true => simp [is_domain_relevant, h1, hA]
    | false =>
      rcases hin2 with h | h
      · rw [hA] at h; simp at h
      · simp [is_domain_relevant, h1, hA, h]
  intro hc
  unfold analyze_query at hc
  rw [hrel] at hc
  simp only [Bool.not_true] at hc
  rw [if_neg (by simp)] at hc
  cases hf : fetch_structured_data (parse_intent user_query) env with
  | error e =>
    rw [hf] at hc
    exact fetchErrorNeIrrelevant _ hc
  | ok sd =>
    rw [hf] at hc
    unfold analyze_query_with_data at hc
    cases hl : env.llm with
    | callError => rw [hl] at hc; exact noDataNeIrrelevant _ _ hc
    | parseFail => rw [hl] at hc; exact manualNeIrrelevant _ _ _ hc
    | parsed p => rw [hl] at hc; exact hllm p hl hc

/-- Witness for the amended C1 at the concrete query "top investors"
over the all-local environment. -/
theorem claim_C1_witness :
    inDomainSignal "top investors" = true
    ∧ ¬ analyze_query "top investors" emptyEnv
        = create_domain_irrelevant_response "top investors" :=
  ⟨by decide,
   claim_C1_amended "top investors" emptyEnv (by decide) (by decide)
     (fun p h => nomatch h)⟩

/-- Every table of the envelope has rows exactly as long as its header
list (the invariant of spec section 6). -/
def tablesOk (r : ChatResponse) : Prop :=
  ∀ t ∈ r.tables, ∀ row ∈ t.rows, row.length = t.headers.length

/-- Envelopes without tables satisfy the invariant. -/
theorem tablesOkOfNoTables {r : ChatResponse} (h : r.tables = []) : tablesOk r := by
  intro t ht
  rw [h] at ht
  exact absurd ht (List.not_mem_nil t)

/-- The general-overview table is four cells wide in every row. -/
theorem tablesOkGeneral (rc : RawCounts) : tablesOk (create_general_enhanced_response rc) := by
  intro t ht row hrow
  simp only [create_general_enhanced_response, List.mem_singleton] at ht
  subst ht
  simp only [List.mem_cons, List.not_mem_nil, or_false] at hrow
  rcases hrow with h | h | h | h <;> subst h <;> rfl

/-- The winners table is seven cells wide in every row. -/
theorem tablesOkWinners (w : WinnersData) :
    tablesOk (create_last_month_winners_enhanced_response w) := by
  unfold create_last_month_winners_enhanced_response
  cases w.qualified_winners with
  | nil => exact tablesOkOfNoTables rfl
  | cons q0 rest =>
    intro t ht row hrow
    simp only [List.mem_singleton] at ht
    subst ht
    simp only [List.mem_map] at hrow
    obtain ⟨x, -, rfl⟩ := hrow
    rfl

/-- The regional table is seven cells wide in every row. -/
theorem tablesOkRegionalOk (rd : List RegionEntry) (r : ChatResponse)
    (h : create_regional_enhanced_response rd = .ok r) : tablesOk r := by
  unfold create_regional_enhanced_response at h
  rcases ht6 : rd.take 6 with _ | ⟨r0, rest⟩
  · rw [ht6] at h
    exact absurd h (by simp)
  · rw [ht6] at h
    obtain rfl := Except.ok.inj h
    intro t ht row hrow
    simp only [List.mem_singleton] at ht
    subst ht
    simp only [List.mem_map] at hrow
    obtain ⟨x, -, rfl⟩ := hrow
    rfl

/-- Tables invariant for normal results of the general fallback
branch. -/
theorem tablesOkGeneralBranch (q : String) (sd : StructuredData) (r : ChatResponse)
    (h : manualBranchGeneral q sd = .ok r) : tablesOk r := by
  unfold manualBranchGeneral at h
  split at h
  · obtain rfl := Except.ok.inj h
    exact tablesOkGeneral _
  · obtain rfl := Except.ok.inj h
    exact tablesOkOfNoTables rfl

/-- Tables invariant for normal results of the bidding branch. -/
theorem tablesOkBiddingBranch (q : String) (sd : StructuredData) (r : ChatResponse)
    (h : manualBranchBidding q sd = .ok r) : tablesOk r := by
  unfold manualBranchBidding at h
  simp only [IntentData.biddingAnalysisKey] at h
  split at h
  · exact tablesOkGeneralBranch q sd r h
  · exact tablesOkGeneralBranch q sd r h

/-- Tables invariant for normal results of the regional branch. -/
theorem tablesOkRegionalBranch (q : String) (sd : StructuredData) (r : ChatResponse)
    (h : manualBranchRegional q sd = .ok r) : tablesOk r := by
  unfold manualBranchRegional at h
  split at h
  · cases hk : sd.data.regionalKey with
    | some rd => rw [hk] at h; exact tablesOkRegionalOk _ _ h
    | none => rw [hk] at h; exact tablesOkBiddingBranch q sd r h
  · exact tablesOkBiddingBranch q sd r h

/-- Tables invariant for normal results of the winners branch. -/
theorem tablesOkWinnersBranch (q : String) (sd : StructuredData) (r : ChatResponse)
    (h : manualBranchWinners q sd = .ok r) : tablesOk r := by
  unfold manualBranchWinners at h
  split at h
  · obtain rfl := Except.ok.inj h
    exact tablesOkWinners _
  · exact tablesOkRegionalBranch q sd r h

/-- Tables invariant for normal results of the whole manual cascade. -/
theorem tablesOkBody (q : String) (sd : StructuredData) (r : ChatResponse)
    (h : create_enhanced_manual_response_body q sd = .ok r) : tablesOk r := by
  unfold create_enhanced_manual_response_body at h
  split at h
  · cases hk : sd.data.topInvestorsKey with
    | some ti => rw [hk] at h; exact absurd h (topInvNeverOk _ _)
    | none => rw [hk] at h; exact tablesOkWinnersBranch q sd r h
  · exact tablesOkWinnersBranch q sd r h

/-- Tables invariant for the manual formatter. -/
theorem tablesOkManual (q : String) (sd : StructuredData) :
    tablesOk (create_enhanced_manual_response q sd) := by
  unfold create_enhanced_manual_response
  cases hb : create_enhanced_manual_response_body q sd with
  | ok r => exact tablesOkBody q sd r hb
  | error e => exact tablesOkOfNoTables rfl

/-- A malformed table descriptor as an external generation could emit
it: two headers, a one-cell row.  The pydantic TableData constructor
accepts it (field types check out, lengths are never compared). -/
def badLLMTable : TableData :=
  { headers := ["Investor", "Total"], rows := [[Cell.str "Alice"]],
    title := "Broken", description := none }

/-- An environment whose external generation parses to an envelope
carrying the malformed table. -/
def envBadLLM : Env :=
  { users := [], properties := [], auctions := [], bids := [], now := 0,
    fetchExc := none,
    llm := .parsed
      { response := some "## Analysis", charts := [], tables := [badLLMTable],
        summary_points := some [] } }

/-- C2 as frozen is refuted on the external-generation path: the parsed
table is passed through unvalidated, so respond returns an envelope whose
only table has a one-cell row under two headers. -/
theorem claim_C2_counterexample :
    (analyze_query "auction summary" envBadLLM).tables = [badLLMTable]
    ∧ ((analyze_query "auction summary" envBadLLM).tables.all
        (fun t => t.rows.all (fun row => row.length == t.headers.length))) = false :=
  ⟨rfl, by decide⟩

/-- C2 (amended): every table in a respond envelope built by the local
formatting paths has rows exactly as long as its header list; tables
parsed from the external text-generation output are passed through
without validation and can violate the invariant (see the
counterexample). -/
theorem claim_C2_amended (user_query : String) (env : Env)
    (hllm : ∀ p, ¬ env.llm = LLMOutcome.parsed p) :
    tablesOk (analyze_query user_query env) := by
  unfold analyze_query
  cases hrel : is_domain_relevant user_query with
  | false => exact tablesOkOfNoTables rfl
  | true =>
    simp only [Bool.not_true]
    rw [if_neg (by simp)]
    cases hf : fetch_structured_data (parse_intent user_query) env with
    | error e => exact tablesOkOfNoTables rfl
    | ok sd =>
      unfold analyze_query_with_data
      cases hl : env.llm with
      | callError => exact tablesOkOfNoTables rfl
      | parseFail => exact tablesOkManual _ _
      | parsed p => exact absurd hl (hllm p)

/-- Witness for the amended C2: the all-local environment over the
concrete query "regional analysis". -/
theorem claim_C2_witness :
    emptyEnv.llm = LLMOutcome.parseFail
    ∧ tablesOk (analyze_query "regional analysis" emptyEnv) :=
  ⟨rfl, claim_C2_amended "regional analysis" emptyEnv (fun p h => nomatch h)⟩

/-- C4: the top-investors aggregate is sorted descending by per-investor
total bid amount; the requested count is the first extracted number
entity, defaulting to 5; and the returned list is no longer than that
count. -/
theorem claim_C4 (users : List User) (bids : List Bid) (entities : Entities) :
    List.Sorted topInvRel (get_top_investors_data users bids entities).top_investors
    ∧ (get_top_investors_data users bids entities).requested_count
        = (match entities.numbers with
            | [] => 5
            | n :: _ => n)
    ∧ (get_top_investors_data users bids entities).top_investors.length
        ≤ (get_top_investors_data users bids entities).requested_count := by
  unfold get_top_investors_data
  dsimp only
  refine ⟨?_, rfl, ?_⟩
  · exact List.Pairwise.sublist (List.take_sublist _ _)
      (List.sorted_insertionSort topInvRel _)
  · rw [List.length_take]
    exact min_le_left _ _

/-- Witness for C4: the empty data set with an empty entity bag. -/
theorem claim_C4_witness :
    List.Sorted topInvRel (get_top_investors_data [] []
        { time_period := [], locations := [], property_types := [], numbers := [] }).top_investors
    ∧ (get_top_investors_data [] []
        { time_period := [], locations := [], property_types := [], numbers := [] }).requested_count
        = 5
    ∧ (get_top_investors_data [] []
        { time_period := [], locations := [], property_types := [], numbers := [] }).top_investors.length
        ≤ (get_top_investors_data [] []
        { time_period := [], locations := [], property_types := [], numbers := [] }).requested_count :=
  claim_C4 [] [] { time_period := [], locations := [], property_types := [], numbers := [] }

/-- Entries of an updated association map keep a pointwise property when
the map had it, the update preserves it, and a freshly updated entry has
it. -/
theorem assocUpdateForall {β : Type} (P : β → Prop) (m : List (String × β)) (k : String)
    (fresh : β) (f : β → β) (hm : ∀ p ∈ m, P p.2) (hf : P (f fresh))
    (hstep : ∀ v, P v → P (f v)) : ∀ p ∈ assocUpdate m k fresh f, P p.2 := by
  induction m with
  | nil =>
    intro p hp
    simp only [assocUpdate, List.mem_singleton] at hp
    subst hp
    exact hf
  | cons a t ih =>
    obtain ⟨k2, v⟩ := a
    intro p hp
    simp only [assocUpdate] at hp
    split at hp
    · rcases List.mem_cons.mp hp with rfl | hpt
      · exact hstep v (hm (k2, v) (List.mem_cons_self _ _))
      · exact hm p (List.mem_cons_of_mem _ hpt)
    · rcases List.mem_cons.mp hp with rfl | hpt
      · exact hm (k2, v) (List.mem_cons_self _ _)
      · exact ih (fun q hq => hm q (List.mem_cons_of_mem _ hq)) p hpt

/-- Grouping invariant of the top-investors loop: every entry of the
stats dict was created by at least one bid, and its winning-bid count
never exceeds its bid count. -/
theorem investorStatsInv (bids : List Bid) :
    ∀ p ∈ investorStatsOf bids,
      1 ≤ p.2.total_bids ∧ p.2.winning_bids ≤ p.2.total_bids := by
  suffices h : ∀ (m : List (String × InvestorStats)),
      (∀ p ∈ m, 1 ≤ p.2.total_bids ∧ p.2.winning_bids ≤ p.2.total_bids) →
      ∀ p ∈ bids.foldl
        (fun m b => assocUpdate m b.investor_id freshInvestorStats (bumpStats b)) m,
        1 ≤ p.2.total_bids ∧ p.2.winning_bids ≤ p.2.total_bids by
    exact h [] (by simp)
  induction bids with
  | nil =>
    intro m hm
    simpa using hm
  | cons b t ih =>
    intro m hm
    simp only [List.foldl_cons]
    apply ih
    refine assocUpdateForall
      (fun s => 1 ≤ s.total_bids ∧ s.winning_bids ≤ s.total_bids) m _ _ _ hm ?_ ?_
    · constructor
      · simp [bumpStats, freshInvestorStats]
      · simp only [bumpStats, freshInvestorStats]
        split <;> simp
    · intro v hv
      obtain ⟨h1, h2⟩ := hv
      constructor
      · simp only [bumpStats]
        omega
      · simp only [bumpStats]
        split <;> omega

/-- C10: every entry of the per-investor stats dict records at least one
bid, so for every bids input the divisions behind average_bid and
success_rate are defined (total_bids never 0) and success_rate lies in
[0, 100] for every returned investor. -/
theorem claim_C10 (users : List User) (bids : List Bid) (entities : Entities) :
    (∀ p ∈ investorStatsOf bids, 1 ≤ p.2.total_bids)
    ∧ ∀ inv ∈ (get_top_investors_data users bids entities).top_investors,
        1 ≤ inv.total_bids ∧ inv.winning_bids ≤ inv.total_bids
        ∧ 0 ≤ inv.success_rate ∧ inv.success_rate ≤ 100 := by
  constructor
  · intro p hp
    exact (investorStatsInv bids p hp).1
  · intro inv hinv
    unfold get_top_investors_data at hinv
    dsimp only at hinv
    have h1 : inv ∈ List.insertionSort topInvRel
        ((investorStatsOf bids).filterMap (fun p =>
          (userLookup users p.1).map (fun u => mkEnrichedInvestor p.1 u p.2))) :=
      List.Sublist.mem hinv (List.take_sublist _ _)
    have h2 : inv ∈ (investorStatsOf bids).filterMap (fun p =>
        (userLookup users p.1).map (fun u => mkEnrichedInvestor p.1 u p.2)) :=
      (List.perm_insertionSort topInvRel _).subset h1
    rw [List.mem_filterMap] at h2
    obtain ⟨⟨iid, s⟩, hmem, hsome⟩ := h2
    cases hu : userLookup users iid with
    | none =>
      rw [hu] at hsome
      exact absurd hsome (by simp)
    | some u =>
      rw [hu] at hsome
      simp only [Option.map_some'] at hsome
      obtain rfl := Option.some.inj hsome
      have hst := investorStatsInv bids ⟨iid, s⟩ hmem
      obtain ⟨hb1, hb2⟩ := hst
      have htb : (0 : Rat) < (s.total_bids : Rat) := by
        exact_mod_cast Nat.lt_of_lt_of_le Nat.zero_lt_one hb1
      have hw0 : (0 : Rat) ≤ (s.winning_bids : Rat) := Nat.cast_nonneg _
      have hwt : (s.winning_bids : Rat) ≤ (s.total_bids : Rat) := by exact_mod_cast hb2
      have hdiv0 : (0 : Rat) ≤ (s.winning_bids : Rat) / (s.total_bids : Rat) :=
        div_nonneg hw0 htb.le
      have hdiv1 : (s.winning_bids : Rat) / (s.total_bids : Rat) ≤ 1 :=
        (div_le_one htb).mpr hwt
      refine ⟨hb1, hb2, ?_, ?_⟩
      · show (0 : Rat) ≤ ((s.winning_bids : Rat) / (s.total_bids : Rat)) * 100
        exact mul_nonneg hdiv0 (by norm_num)
      · show ((s.winning_bids : Rat) / (s.total_bids : Rat)) * 100 ≤ 100
        calc ((s.winning_bids : Rat) / (s.total_bids : Rat)) * 100
            ≤ 1 * 100 := mul_le_mul_of_nonneg_right hdiv1 (by norm_num)
          _ = 100 := one_mul 100

/-- A concrete investor used by the witnesses. -/
def U1 : User :=
  { id := "u1", email := "ann@example.com", name := "Ann Lee", location := "Austin, TX",
    profile_verified := true, success_rate := 80, total_bids := 4, won_auctions := 2 }

/-- A concrete winning bid by U1. -/
def B1 : Bid :=
  { id := "b1", auction_id := "a1", property_id := "p1", investor_id := "u1",
    bid_amount := 10, bid_time := 0, status := "winning", is_auto_bid := false }

/-- The empty entity bag. -/
def E0 : Entities :=
  { time_period := [], locations := [], property_types := [], numbers := [] }

/-- The enriched record the top-investors aggregate produces for U1 and
B1. -/
def INV1 : EnrichedInvestor :=
  { investor_id := "u1", name := "Ann Lee", location := "Austin, TX",
    email := "ann@example.com", profile_verified := true, total_bids := 1,
    total_amount := 10, average_bid := 10, winning_bids := 1, success_rate := 100,
    max_bid := 10, min_bid := 10 }

/-- Witness for C10 at one user with one winning bid. -/
theorem claim_C10_witness :
    INV1 ∈ (get_top_investors_data [U1] [B1] E0).top_investors
    ∧ (1 ≤ INV1.total_bids ∧ INV1.winning_bids ≤ INV1.total_bids
        ∧ 0 ≤ INV1.success_rate ∧ INV1.success_rate ≤ 100) :=
  ⟨of_decide_eq_true (by with_unfolding_all rfl),
   (claim_C10 [U1] [B1] E0).2 INV1 (of_decide_eq_true (by with_unfolding_all rfl))⟩

/-- bumpRegion always increments the property count by one. -/
theorem bumpRegionProps (auctions : List Auction) (p : Property) (acc : RegionAcc) :
    (bumpRegion auctions p acc).properties = acc.properties + 1 := by
  unfold bumpRegion
  cases h : auctionByProp auctions p.id <;> simp [h]

/-- bumpRegion always adds the reserve price to the total value. -/
theorem bumpRegionValue (auctions : List Auction) (p : Property) (acc : RegionAcc) :
    (bumpRegion auctions p acc).total_value = acc.total_value + p.reserve_price := by
  unfold bumpRegion
  cases h : auctionByProp auctions p.id <;> simp [h]

/-- Folding bumpRegion over a property list adds its length to the
property count. -/
theorem foldBumpProps (auctions : List Auction) (ps : List Property) (acc : RegionAcc) :
    (ps.foldl (fun a p => bumpRegion auctions p a) acc).properties
      = acc.properties + ps.length := by
  induction ps generalizing acc with
  | nil => simp
  | cons p t ih =>
    simp only [List.foldl_cons, List.length_cons]
    rw [ih, bumpRegionProps]
    omega

/-- Folding bumpRegion over a property list adds its reserve-price sum
to the total value. -/
theorem foldBumpValue (auctions : List Auction) (ps : List Property) (acc : RegionAcc) :
    (ps.foldl (fun a p => bumpRegion auctions p a) acc).total_value
      = acc.total_value + (ps.map (fun p => p.reserve_price)).sum := by
  induction ps generalizing acc with
  | nil => simp
  | cons p t ih =>
    simp only [List.foldl_cons, List.map_cons, List.sum_cons]
    rw [ih, bumpRegionValue]
    ring

/-- On a one-entry dict keyed by the property city, the regional step is
exactly bumpRegion on that entry. -/
theorem regionalStepSingle (auctions : List Auction) (p : Property) (c : String)
    (acc : RegionAcc) (hpc : p.city = c) :
    regionalStep auctions [(c, acc)] p = [(c, bumpRegion auctions p acc)] := by
  subst hpc
  simp [regionalStep, assocUpdate]

/-- Folding the regional step over a single-city property list keeps the
dict a single entry under that city and folds bumpRegion inside it. -/
theorem regionalFoldAux (auctions : List Auction) (t : List Property) (c : String)
    (hc : ∀ p ∈ t, p.city = c) (acc : RegionAcc) :
    t.foldl (regionalStep auctions) [(c, acc)]
      = [(c, t.foldl (fun a p => bumpRegion auctions p a) acc)] := by
  induction t generalizing acc with
  | nil => rfl
  | cons p t2 ih =>
    have hpc : p.city = c := hc p (List.mem_cons_self _ _)
    simp only [List.foldl_cons]
    rw [regionalStepSingle auctions p c acc hpc]
    exact ih (fun q hq => hc q (List.mem_cons_of_mem _ hq)) _

/-- C9: over a nonempty property collection lying in a single city, the
regional analysis is a one-element ranked list whose avg_reserve_price is
the total reserve value divided by the property count, and that count is
positive, so the unguarded division never divides by zero. -/
theorem claim_C9 (properties : List Property) (auctions : List Auction) (bids : List Bid)
    (entities : Entities) (c : String) (hne : properties ≠ [])
    (hcity : ∀ p ∈ properties, p.city = c) :
    (get_regional_analysis_data properties auctions bids entities).regional_analysis.length = 1
    ∧ ∀ e ∈ (get_regional_analysis_data properties auctions bids entities).regional_analysis,
        e.properties = properties.length
        ∧ 0 < e.properties
        ∧ e.avg_reserve_price
            = (properties.map (fun p => p.reserve_price)).sum / (properties.length : Rat) := by
  obtain ⟨p0, t, rfl⟩ := List.exists_cons_of_ne_nil hne
  have hp0 : p0.city = c := hcity p0 (List.mem_cons_self _ _)
  have hct : ∀ p ∈ t, p.city = c := fun q hq => hcity q (List.mem_cons_of_mem _ hq)
  have hfold : regionalFold auctions (p0 :: t)
      = [(c, t.foldl (fun a p => bumpRegion auctions p a)
          (bumpRegion auctions p0
            { city := p0.city, state := p0.state, properties := 0, auctions := 0,
              total_bids := 0, total_value := 0, property_types := [] }))] := by
    unfold regionalFold
    simp only [List.foldl_cons]
    have hstep : regionalStep auctions [] p0
        = [(c, bumpRegion auctions p0
            { city := p0.city, state := p0.state, properties := 0, auctions := 0,
              total_bids := 0, total_value := 0, property_types := [] })] := by
      simp [regionalStep, assocUpdate, hp0]
    rw [hstep]
    exact regionalFoldAux auctions t c hct _
  have hprops : (t.foldl (fun a p => bumpRegion auctions p a)
      (bumpRegion auctions p0
        { city := p0.city, state := p0.state, properties := 0, auctions := 0,
          total_bids := 0, total_value := 0, property_types := [] })).properties
      = (p0 :: t).length := by
    rw [foldBumpProps, bumpRegionProps]
    simp only [List.length_cons]
    omega
  have hvalue : (t.foldl (fun a p => bumpRegion auctions p a)
      (bumpRegion auctions p0
        { city := p0.city, state := p0.state, properties := 0, auctions := 0,
          total_bids := 0, total_value := 0, property_types := [] })).total_value
      = ((p0 :: t).map (fun p => p.reserve_price)).sum := by
    rw [foldBumpValue, bumpRegionValue]
    simp [add_comm]
  unfold get_regional_analysis_data
  rw [hfold]
  dsimp only [List.map_cons, List.map_nil]
  constructor
  · simp [List.insertionSort, List.orderedInsert]
  · intro e he
    simp only [List.insertionSort, List.orderedInsert, List.mem_singleton] at he
    subst he
    refine ⟨?_, ?_, ?_⟩
    · simpa [finishRegion] using hprops
    · simp only [finishRegion]
      rw [hprops]
      simp
    · simp only [finishRegion]
      rw [hprops, hvalue]
      simp

/-- A concrete residential property in Austin. -/
def P1 : Property :=
  { id := "p1", title := "House A", description := "Two-bed house", location := "Austin",
    city := "Austin", state := "TX", zipcode := "78701", property_type := "residential",
    reserve_price := 10, estimated_value := 12 }

/-- A second residential property in the same city. -/
def P2 : Property :=
  { id := "p2", title := "House B", description := "Three-bed house", location := "Austin",
    city := "Austin", state := "TX", zipcode := "78702", property_type := "residential",
    reserve_price := 20, estimated_value := 25 }

/-- The single regional entry produced for P1 and P2 with no auctions. -/
def REG1 : RegionEntry :=
  { city := "Austin", state := "TX", properties := 2, auctions := 0, total_bids := 0,
    total_value := 30, avg_reserve_price := 15, property_types := ["residential"],
    avg_bids_per_auction := 0 }

set_option maxRecDepth 16000 in
/-- Witness for C9: two same-city properties give a one-element ranking
with average reserve price 30 / 2 = 15. -/
theorem claim_C9_witness :
    ([P1, P2] : List Property) ≠ []
    ∧ (∀ p ∈ ([P1, P2] : List Property), p.city = "Austin")
    ∧ REG1 ∈ (get_regional_analysis_data [P1, P2] [] [] E0).regional_analysis
    ∧ (REG1.properties = ([P1, P2] : List Property).length
        ∧ 0 < REG1.properties
        ∧ REG1.avg_reserve_price
            = (([P1, P2] : List Property).map (fun p => p.reserve_price)).sum
              / ((([P1, P2] : List Property).length : Nat) : Rat)) :=
  ⟨by decide, by decide,
   of_decide_eq_true (by with_unfolding_all rfl),
   (claim_C9 [P1, P2] [] [] E0 "Austin" (by decide) (by decide)).2 REG1
     (of_decide_eq_true (by with_unfolding_all rfl))⟩

/-- C5: the winners selection keeps exactly the ended auctions whose end
time lies in the 60-to-30-days-before-now window and which carry a truthy
winner reference; every returned winner has strictly more than 2 wins
among those auctions; and the returned list is sorted by win count
descending with ties broken by total spend descending. -/
theorem claim_C5 (users : List User) (auctions : List Auction) (bids : List Bid)
    (entities : Entities) (now : Int) :
    (∀ a, a ∈ ended_auctions_last_month auctions now ↔
        (a ∈ auctions ∧ a.status = "ended" ∧ now - 60 * 86400 ≤ a.end_time
          ∧ a.end_time ≤ now - 30 * 86400 ∧ winnerTruthy a.winner_id = true))
    ∧ (∀ qw ∈ (get_last_month_winners_data users auctions bids entities now).qualified_winners,
        2 < qw.properties_won_last_month)
    ∧ List.Sorted winnersRel
        (get_last_month_winners_data users auctions bids entities now).qualified_winners := by
  refine ⟨?_, ?_, ?_⟩
  · intro a
    simp [ended_auctions_last_month, List.mem_filter, lastMonthPred, and_assoc]
  · intro qw hqw
    unfold get_last_month_winners_data at hqw
    dsimp only at hqw
    have h2 := (List.perm_insertionSort winnersRel _).subset hqw
    rw [List.mem_filterMap] at h2
    obtain ⟨⟨wid, ws⟩, hmem, hsome⟩ := h2
    rw [List.mem_filter] at hmem
    have hwon : 2 < ws.total_won := by simpa using hmem.2
    dsimp only at hsome
    cases hu : List.find? (fun u => u.id == wid) users with
    | none => rw [hu] at hsome; exact absurd hsome (by simp)
    | some u =>
      rw [hu] at hsome
      simp only [Option.map_some'] at hsome
      obtain rfl := Option.some.inj hsome
      exact hwon
  · unfold get_last_month_winners_data
    dsimp only
    exact List.sorted_insertionSort winnersRel _

/-- The clock of the C5 witness: day 60, so the window is [day 0,
day 30]. -/
def NOWC5 : Int := 5184000

/-- Ended auction inside the window, won by U1 at 10. -/
def AU1 : Auction :=
  { id := "a1", property_id := "p1", title := "Auction 1", start_time := 0,
    end_time := 0, status := "ended", starting_bid := 5,
    current_highest_bid := 10, total_bids := 3, winner_id := some "u1" }

/-- Ended auction inside the window, won by U1 at 20. -/
def AU2 : Auction :=
  { id := "a2", property_id := "p2", title := "Auction 2", start_time := 0,
    end_time := 600, status := "ended", starting_bid := 5,
    current_highest_bid := 20, total_bids := 4, winner_id := some "u1" }

/-- Ended auction inside the window, won by U1 at 30. -/
def AU3 : Auction :=
  { id := "a3", property_id := "p3", title := "Auction 3", start_time := 0,
    end_time := 1200, status := "ended", starting_bid := 5,
    current_highest_bid := 30, total_bids := 5, winner_id := some "u1" }

/-- The qualified winner produced for U1 over AU1-AU3. -/
def QW1 : QualifiedWinner :=
  { investor_id := "u1", name := "Ann Lee", location := "Austin, TX",
    email := "ann@example.com", profile_verified := true,
    properties_won_last_month := 3, total_spent_last_month := 60,
    average_winning_bid := 20,
    won_properties := [wonPropertyOf AU1, wonPropertyOf AU2, wonPropertyOf AU3],
    overall_success_rate := 80, total_career_wins := 2 }

set_option maxRecDepth 16000 in
/-- Witness for C5: three in-window wins by one investor qualify them. -/
theorem claim_C5_witness :
    (AU1 ∈ ended_auctions_last_month [AU1, AU2, AU3] NOWC5
      ↔ (AU1 ∈ ([AU1, AU2, AU3] : List Auction) ∧ AU1.status = "ended"
          ∧ NOWC5 - 60 * 86400 ≤ AU1.end_time ∧ AU1.end_time ≤ NOWC5 - 30 * 86400
          ∧ winnerTruthy AU1.winner_id = true))
    ∧ QW1 ∈ (get_last_month_winners_data [U1] [AU1, AU2, AU3] [] E0 NOWC5).qualified_winners
    ∧ 2 < QW1.properties_won_last_month :=
  ⟨(claim_C5 [U1] [AU1, AU2, AU3] [] E0 NOWC5).1 AU1,
   of_decide_eq_true (by with_unfolding_all rfl),
   (claim_C5 [U1] [AU1, AU2, AU3] [] E0 NOWC5).2.1 QW1
     (of_decide_eq_true (by with_unfolding_all rfl))⟩
